import Mathlib

/-
Verification development for the mt5-python-bot backtesting core.

The definitions below are a shallow embedding of the Python sources:
  - kraken.py                              (PST state machine, SR zones, Kraken coordinator)
  - src/trading_bot/animus/advisor.py      (strategy advisor)
  - src/trading_bot/animus/trade_objects.py (account and positions)
  - src/trading_bot/animus/animus.py       (backtest driver)
  - utility.py                             (round_to_ref)

Python floats are modelled as exact rationals (Rat); timestamps as naturals.
Places where the Python code would raise an exception are modelled with
Except (when the surrounding code can reach them) or noted in comments
(when unreachable in initialized runs).  uuid4() draws are modelled by an
explicit stream of identifier strings.
-/

deriving instance DecidableEq for Except

namespace MT5

/-- Direction enum from kraken.py (Constants.DIRECTION). -/
inductive Direction where
  | UP
  | DOWN
  | UNDETERMINED
deriving DecidableEq, Repr

/-- Candle from kraken.py: immutable OHLC row keyed by timestamp. -/
structure Candle where
  timestamp : Nat
  openP : Rat
  high : Rat
  low : Rat
  close : Rat
deriving DecidableEq, Repr

/-- Candle.dir property: UP if close > open else DOWN. -/
def Candle.dir (c : Candle) : Direction :=
  if c.close > c.openP then Direction.UP else Direction.DOWN

/-- Python abs() on a float, as an executable definition. -/
def pyAbs (x : Rat) : Rat := if x < 0 then -x else x

/-- Floor of a rational, as an executable definition (Int.fdiv is floor
division and the denominator is positive). -/
def pyFloor (q : Rat) : Int := q.num.fdiv q.den

/-- Powers of ten as rationals, as an executable definition. -/
def pow10 : Nat → Rat
  | 0 => 1
  | k + 1 => 10 * pow10 k

/-- Comparison `v < x` on an optional float `v` (Python would raise a
TypeError when the value is None; those states are unreachable in
initialized runs and are modelled as a false test). -/
def oLt : Option Rat → Rat → Bool
  | none, _ => false
  | some v, x => decide (v < x)

/-- Comparison `v > x` on an optional float `v` (see oLt). -/
def oGt : Option Rat → Rat → Bool
  | none, _ => false
  | some v, x => decide (v > x)

/--
State of one PrimarySegment (BaseSegment plus PrimarySegment fields from
kraken.py), without the uuid seg_id, which is carried separately.
`keyHighCandles`/`keyLowCandles` hold optional timestamps because the
source appends `_last_high_candle`/`_last_low_candle`, which can be None.
-/
structure SegCore where
  timeFrame : String
  dir : Direction
  keyHigh : Option Rat
  keyLow : Option Rat
  lastHigh : Option Rat
  lastLow : Option Rat
  keyHighCandle : Option Nat
  keyLowCandle : Option Nat
  lastHighCandle : Option Nat
  lastLowCandle : Option Nat
  choc : Bool
  chocConfirmed : Bool
  segmentHigh : Option Rat
  segmentLow : Option Rat
  bosNum : Nat
  inBos : Bool
  inPullBack : Bool
  inChocPullBack : Bool
  candles : List Nat
  bosCandles : List Nat
  chocCandles : List Nat
  keyHighCandles : List (Option Nat)
  keyLowCandles : List (Option Nat)
  highestCandle : Option Nat
  lowestCandle : Option Nat
  chocConfirmCandle : Option Nat
deriving DecidableEq, Repr

/-- Constructor defaults of BaseSegment/PrimarySegment.__init__: the
seed parameters are the direction, key/last levels and their candle
references; everything else is reset. -/
def SegCore.mk0 (timeFrame : String) (dir : Direction)
    (keyLow keyHigh lastLow lastHigh : Option Rat)
    (keyLowCandle keyHighCandle lastLowCandle lastHighCandle : Option Nat) : SegCore :=
  { timeFrame := timeFrame
    dir := dir
    keyHigh := keyHigh
    keyLow := keyLow
    lastHigh := lastHigh
    lastLow := lastLow
    keyHighCandle := keyHighCandle
    keyLowCandle := keyLowCandle
    lastHighCandle := lastHighCandle
    lastLowCandle := lastLowCandle
    choc := false
    chocConfirmed := false
    segmentHigh := none
    segmentLow := none
    bosNum := 0
    inBos := true
    inPullBack := false
    inChocPullBack := false
    candles := []
    bosCandles := []
    chocCandles := []
    keyHighCandles := []
    keyLowCandles := []
    highestCandle := none
    lowestCandle := none
    chocConfirmCandle := none }

/-- Fresh segment as created by `PrimarySegment(str(uuid4()), time_frame)`:
all seed parameters default (direction UNDETERMINED, levels None). -/
def SegCore.fresh (timeFrame : String) : SegCore :=
  SegCore.mk0 timeFrame Direction.UNDETERMINED none none none none none none none none

/-- First block of PrimarySegment.set_last_high_low: track the last high
unless the segment is DOWN and in BOS. -/
def setLastHigh (s : SegCore) (c : Candle) : SegCore :=
  if ¬(s.dir = Direction.DOWN ∧ s.inBos = true) then
    match s.lastHigh with
    | none => { s with lastHigh := some c.high, lastHighCandle := some c.timestamp }
    | some lh =>
        if lh < c.high then { s with lastHigh := some c.high, lastHighCandle := some c.timestamp }
        else s
  else s

/-- Second block of PrimarySegment.set_last_high_low: track the last low
unless the segment is UP and in BOS. -/
def setLastLow (s : SegCore) (c : Candle) : SegCore :=
  if ¬(s.dir = Direction.UP ∧ s.inBos = true) then
    match s.lastLow with
    | none => { s with lastLow := some c.low, lastLowCandle := some c.timestamp }
    | some ll =>
        if ll > c.low then { s with lastLow := some c.low, lastLowCandle := some c.timestamp }
        else s
  else s

/-- PrimarySegment.set_last_high_low: the two blocks in sequence. -/
def setLastHighLow (s : SegCore) (c : Candle) : SegCore :=
  setLastLow (setLastHigh s c) c

/-- First block of PrimarySegment.update_segment_high_low. -/
def updateSegmentHigh (s : SegCore) (c : Candle) : SegCore :=
  match s.segmentHigh with
  | none => { s with segmentHigh := some c.high, highestCandle := some c.timestamp }
  | some sh =>
      if sh < c.high then { s with segmentHigh := some c.high, highestCandle := some c.timestamp }
      else s

/-- Second block of PrimarySegment.update_segment_high_low. -/
def updateSegmentLow (s : SegCore) (c : Candle) : SegCore :=
  match s.segmentLow with
  | none => { s with segmentLow := some c.low, lowestCandle := some c.timestamp }
  | some sl =>
      if sl > c.low then { s with segmentLow := some c.low, lowestCandle := some c.timestamp }
      else s

/-- PrimarySegment.update_segment_high_low: the two blocks in sequence. -/
def updateSegmentHighLow (s : SegCore) (c : Candle) : SegCore :=
  updateSegmentLow (updateSegmentHigh s c) c

/-- UP branch, BOS pullback check (kraken.py lines 372-380). -/
def upPullBack (s : SegCore) (c : Candle) : SegCore :=
  if s.inPullBack = false ∧ s.inBos = true ∧ c.dir = Direction.DOWN then
    { s with inPullBack := true, inBos := false,
             keyHigh := s.lastHigh, keyHighCandle := s.lastHighCandle,
             keyHighCandles := s.keyHighCandles ++ [s.lastHighCandle] }
  else s

/-- UP branch, ChOC pullback check (kraken.py lines 383-392). -/
def upChocPullBack (s : SegCore) (c : Candle) : SegCore :=
  if s.choc = true ∧ s.inChocPullBack = false ∧ c.dir = Direction.UP then
    { s with inChocPullBack := true,
             keyLow := s.lastLow, keyLowCandle := s.lastLowCandle,
             keyLowCandles := s.keyLowCandles ++ [s.lastLowCandle],
             lastHigh := some c.high, lastHighCandle := some c.timestamp }
  else s

/-- UP branch, BOS / ChOC / ChOC-confirm tests (kraken.py lines 395-435). -/
def upBosOrChoc (s : SegCore) (c : Candle) : SegCore :=
  if oLt s.keyHigh c.close = true ∧ s.inPullBack = true ∧ c.dir = Direction.UP then
    -- BOS
    let s := { s with bosNum := s.bosNum + 1, inPullBack := false, inChocPullBack := false,
                      choc := false, inBos := true,
                      bosCandles := s.bosCandles ++ [c.timestamp] }
    let s :=
      if s.lastLow = none ∨ oGt s.lastLow c.low = true then
        { s with keyLow := some c.low, keyLowCandle := some c.timestamp,
                 keyLowCandles := s.keyLowCandles ++ [some c.timestamp] }
      else
        { s with keyLow := s.lastLow, keyLowCandle := s.lastLowCandle,
                 keyLowCandles := s.keyLowCandles ++ [s.lastLowCandle] }
    { s with lastLow := none, lastLowCandle := none }
  else if oGt s.keyLow c.close = true then
    -- ChOC or ChOC confirm
    if s.choc = false then
      { s with choc := true, lastLow := some c.low, lastLowCandle := some c.timestamp,
               chocCandles := s.chocCandles ++ [c.timestamp] }
    else if s.choc = true ∧ s.inChocPullBack = true then
      { s with chocConfirmed := true,
               keyHigh := s.lastHigh, keyHighCandle := s.lastHighCandle,
               keyHighCandles := s.keyHighCandles ++ [s.lastHighCandle],
               lastLow := some c.low, lastLowCandle := some c.timestamp,
               chocConfirmCandle := some c.timestamp }
    else s
  else s

/-- DOWN branch, BOS pullback check (kraken.py lines 440-448).  Note the
source appends `_last_high_candle` to `_key_high_candles` here while it
sets `_key_low`/`_key_low_candle` from the last low; this mirrors the
source exactly. -/
def downPullBack (s : SegCore) (c : Candle) : SegCore :=
  if s.inPullBack = false ∧ s.inBos = true ∧ c.dir = Direction.UP then
    { s with inPullBack := true, inBos := false,
             keyLow := s.lastLow, keyLowCandle := s.lastLowCandle,
             keyHighCandles := s.keyHighCandles ++ [s.lastHighCandle] }
  else s

/-- DOWN branch, ChOC pullback check (kraken.py lines 451-460). -/
def downChocPullBack (s : SegCore) (c : Candle) : SegCore :=
  if s.choc = true ∧ s.inChocPullBack = false ∧ c.dir = Direction.DOWN then
    { s with inChocPullBack := true,
             keyHigh := s.lastHigh, keyHighCandle := s.lastHighCandle,
             keyHighCandles := s.keyHighCandles ++ [s.lastHighCandle],
             lastLow := some c.low, lastLowCandle := some c.timestamp }
  else s

/-- DOWN branch, BOS / ChOC / ChOC-confirm tests (kraken.py lines 463-503). -/
def downBosOrChoc (s : SegCore) (c : Candle) : SegCore :=
  if oGt s.keyLow c.close = true ∧ s.inPullBack = true ∧ c.dir = Direction.DOWN then
    -- BOS
    let s := { s with bosNum := s.bosNum + 1, inPullBack := false, inChocPullBack := false,
                      choc := false, inBos := true,
                      bosCandles := s.bosCandles ++ [c.timestamp] }
    let s :=
      if s.lastHigh = none ∨ oLt s.lastHigh c.high = true then
        { s with keyHigh := some c.high, keyHighCandle := some c.timestamp,
                 keyHighCandles := s.keyHighCandles ++ [some c.timestamp] }
      else
        { s with keyHigh := s.lastHigh, keyHighCandle := s.lastHighCandle,
                 keyHighCandles := s.keyHighCandles ++ [s.lastHighCandle] }
    { s with lastHigh := none, lastHighCandle := none }
  else if oLt s.keyHigh c.close = true then
    -- ChOC or ChOC confirm
    if s.choc = false then
      { s with choc := true, lastHigh := some c.high, lastHighCandle := some c.timestamp,
               chocCandles := s.chocCandles ++ [c.timestamp] }
    else if s.choc = true ∧ s.inChocPullBack = true then
      { s with chocConfirmed := true,
               keyLow := s.lastLow, keyLowCandle := s.lastLowCandle,
               keyLowCandles := s.keyLowCandles ++ [s.lastLowCandle],
               lastHigh := some c.high, lastHighCandle := some c.timestamp,
               chocConfirmCandle := some c.timestamp }
    else s
  else s

/-- PrimarySegment.add_candle (kraken.py lines 347-505). -/
def addCandle (s0 : SegCore) (c : Candle) : SegCore :=
  let s := { s0 with candles := s0.candles ++ [c.timestamp] }
  let s := updateSegmentHighLow s c
  match s.dir with
  | Direction.UNDETERMINED =>
      -- first candle of the very first segment
      let s := { s with dir := c.dir,
                        keyHigh := some c.high, keyHighCandle := some c.timestamp,
                        keyLow := some c.low, keyLowCandle := some c.timestamp,
                        inBos := true }
      setLastHighLow s c
  | Direction.UP =>
      setLastHighLow (upBosOrChoc (upChocPullBack (upPullBack s c) c) c) c
  | Direction.DOWN =>
      setLastHighLow (downBosOrChoc (downChocPullBack (downPullBack s c) c) c) c

/-- PrimarySegment with its uuid4 seg_id.  add_candle never reads or
writes the id, so the machine operates on the core. -/
structure PrimarySegment where
  segId : String
  core : SegCore
deriving DecidableEq, Repr

/-- BaseSegment.opp_dir. -/
def SegCore.oppDir (s : SegCore) : Direction :=
  if s.dir = Direction.UP then Direction.DOWN else Direction.UP

/-- Seed of a new segment in Kraken.process_candle (kraken.py lines
922-933): reversed direction, inherited key/last levels and their candle
references. -/
def seedFromParentK (p : SegCore) : SegCore :=
  SegCore.mk0 p.timeFrame p.oppDir p.keyLow p.keyHigh p.lastLow p.lastHigh
    p.keyLowCandle p.keyHighCandle p.lastLowCandle p.lastHighCandle

/-- Seed of a new segment in SR_Structure.process_candle (kraken.py lines
642-649): same, but the candle references are not passed (default None). -/
def seedFromParentSR (p : SegCore) : SegCore :=
  SegCore.mk0 p.timeFrame p.oppDir p.keyLow p.keyHigh p.lastLow p.lastHigh
    none none none none

/-- Apply add_candle to the last segment of the list (segments[-1]). -/
def updateLast (segs : List PrimarySegment) (c : Candle) : List PrimarySegment :=
  match segs with
  | [] => []
  | [s] => [{ s with core := addCandle s.core c }]
  | s :: rest => s :: updateLast rest c

/--
Kraken.process_candle / SR_Structure.process_candle on one level: start a
new segment (with a fresh uuid from the id stream) if the last segment was
closed by a confirmed ChOC, then add the candle to the last segment.  The
segment list is never empty in the source (it is created non-empty); the
empty case is a no-op here.
-/
def processCandleSegs (seed : SegCore → SegCore) (ids : Nat → String) (n : Nat)
    (segs : List PrimarySegment) (c : Candle) : List PrimarySegment × Nat :=
  match segs.getLast? with
  | none => (segs, n)
  | some lastSeg =>
      if lastSeg.core.chocConfirmed = true then
        (updateLast (segs ++ [{ segId := ids n, core := seed lastSeg.core }]) c, n + 1)
      else (updateLast segs c, n)

/-- Zone type enum from kraken.py. -/
inductive ZoneType where
  | SUPPORT
  | RESISTANCE
deriving DecidableEq, Repr

/-- Value string of the zone type enum. -/
def ZoneType.str : ZoneType → String
  | ZoneType.SUPPORT => "SUPPORT"
  | ZoneType.RESISTANCE => "RESISTANCE"

/-- Zoning mode enum from kraken.py. -/
inductive ZoningMode where
  | CANDLE
  | BODY
  | WICK
deriving DecidableEq, Repr

/-- Raw support/resistance zone (SR_Structure.RSR_Zone). -/
structure RSRZone where
  ztype : ZoneType
  x : Nat
  fullCandle : Rat × Rat
  body : Rat × Rat
  wick : Rat × Rat
deriving DecidableEq, Repr

/-- Aggregated zone data without the uuid id (SR_Structure.ASR_Zone). -/
structure ASRZoneCore where
  ztype : ZoneType
  x : Nat
  interval : Rat × Rat
  retests : Nat
deriving DecidableEq, Repr

/-- Aggregated zone with its uuid4 id. -/
structure ASRZone where
  id : String
  core : ASRZoneCore
deriving DecidableEq, Repr

/-- Interval of a raw zone under the chosen zoning mode (the prelude of
merge_zones and process_zones; a missing mode defaults to CANDLE). -/
def rawInterval (mode : Option ZoningMode) (raw : RSRZone) : Rat × Rat :=
  match mode with
  | some ZoningMode.WICK => raw.wick
  | some ZoningMode.BODY => raw.body
  | _ => raw.fullCandle

/--
SR_Structure.merge_zones (kraken.py lines 709-789): some updated aggregate
when the raw zone merges into it, none when there is no overlap.  The
interval setter's validation (lower bound strictly below upper) cannot fail
on either branch, so it is not modelled as an error.
-/
def mergeZones (mode : Option ZoningMode) (aggr : ASRZoneCore) (raw : RSRZone) :
    Option ASRZoneCore :=
  let intLow := (rawInterval mode raw).1
  let intHigh := (rawInterval mode raw).2
  if intHigh < aggr.interval.2 ∧ intHigh > aggr.interval.1 then
    let newLow := if intLow < aggr.interval.1 then intLow else aggr.interval.1
    let newx := if raw.x < aggr.x then raw.x else aggr.x
    let newtype := if raw.x < aggr.x then raw.ztype else aggr.ztype
    some { ztype := newtype, x := newx, interval := (newLow, aggr.interval.2),
           retests := aggr.retests + 1 }
  else if intHigh > aggr.interval.2 ∧ intLow < aggr.interval.2 then
    let newLow := if intLow < aggr.interval.1 then intLow else aggr.interval.1
    let newx := if raw.x < aggr.x then raw.x else aggr.x
    let newtype := if raw.x < aggr.x then raw.ztype else aggr.ztype
    some { ztype := newtype, x := newx, interval := (newLow, intHigh),
           retests := aggr.retests + 1 }
  else none

/-- SR_Structure.add_to_aggregate_zone: merge the raw zone into the first
aggregate that overlaps; none when no aggregate overlaps. -/
def addToAggregateZone (mode : Option ZoningMode) (zones : List ASRZone) (raw : RSRZone) :
    Option (List ASRZone) :=
  match zones with
  | [] => none
  | z :: rest =>
      match mergeZones mode z.core raw with
      | some c => some ({ z with core := c } :: rest)
      | none => (addToAggregateZone mode rest raw).map (fun rs => z :: rs)

/-- Loop body of SR_Structure.process_zones over the raw zones. -/
def processZonesAux (mode : Option ZoningMode) (ids : Nat → String) :
    List RSRZone → List ASRZone → Nat → List ASRZone × Nat
  | [], acc, n => (acc, n)
  | r :: rs, acc, n =>
      match addToAggregateZone mode acc r with
      | some acc2 => processZonesAux mode ids rs acc2 n
      | none =>
          processZonesAux mode ids rs
            (acc ++ [{ id := ids n,
                       core := { ztype := r.ztype, x := r.x,
                                 interval := rawInterval mode r, retests := 0 } }])
            (n + 1)

/-- SR_Structure.process_zones (kraken.py lines 809-841): with no raw zones
it returns early, before clearing, so prior aggregates persist; otherwise
aggregates are rebuilt from scratch in discovery order. -/
def processZones (mode : Option ZoningMode) (ids : Nat → String) (n : Nat)
    (raw : List RSRZone) (aggr : List ASRZone) : List ASRZone × Nat :=
  if raw.length < 1 then (aggr, n)
  else processZonesAux mode ids raw [] n

/-- Lookup of a candle row by timestamp (pandas .loc; a missing key raises
KeyError, as does indexing with None). -/
def lookupCandle (data : List Candle) (ts : Option Nat) : Except String Candle :=
  match ts with
  | none => Except.error "KeyError: None"
  | some t =>
      match data.find? (fun c => c.timestamp = t) with
      | some c => Except.ok c
      | none => Except.error "KeyError"

/-- Raw zone of one completed segment (body of the level loop of
SR_Structure.compile_zones, kraken.py lines 668-703). -/
def segToZone (data : List Candle) (s : SegCore) : Except String (Option RSRZone) :=
  if s.dir = Direction.UP then do
    let cd ← lookupCandle data s.highestCandle
    let body := if cd.openP > cd.close then (cd.close, cd.openP) else (cd.openP, cd.close)
    let wick := if cd.openP > cd.close then (cd.openP, cd.high) else (cd.close, cd.high)
    Except.ok (some { ztype := ZoneType.RESISTANCE, x := cd.timestamp,
                      fullCandle := (cd.low, cd.high), body := body, wick := wick })
  else if s.dir = Direction.DOWN then do
    let cd ← lookupCandle data s.lowestCandle
    let body := if cd.openP > cd.close then (cd.close, cd.openP) else (cd.openP, cd.close)
    let wick := if cd.openP > cd.close then (cd.low, cd.close) else (cd.low, cd.openP)
    Except.ok (some { ztype := ZoneType.SUPPORT, x := cd.timestamp,
                      fullCandle := (cd.low, cd.high), body := body, wick := wick })
  else Except.ok none

/-- One level of SR_Structure.compile_zones, over segments[1:]. -/
def compileZonesLevel (data : List Candle) : List PrimarySegment → Except String (List RSRZone)
  | [] => Except.ok []
  | s :: rest => do
      let z ← segToZone data s.core
      let zs ← compileZonesLevel data rest
      match z with
      | some zz => Except.ok (zz :: zs)
      | none => Except.ok zs

/-- SR_Structure.compile_zones: raw zones of both SR levels, low level
first, skipping the first segment of each level. -/
def compileZones (dataLow dataHigh : List Candle)
    (segsLow segsHigh : List PrimarySegment) : Except String (List RSRZone) := do
  let zl ← compileZonesLevel dataLow (segsLow.drop 1)
  let zh ← compileZonesLevel dataHigh (segsHigh.drop 1)
  Except.ok (zl ++ zh)

/-- Dictionary form of an aggregated zone (SR_Structure.get_zones). -/
structure ZoneRecord where
  id : String
  ztype : String
  x : Nat
  interval : Rat × Rat
  retests : Nat
deriving DecidableEq, Repr

/-- SR_Structure.get_zones. -/
def getZones (zones : List ASRZone) : List ZoneRecord :=
  zones.map (fun z => { id := z.id, ztype := z.core.ztype.str, x := z.core.x,
                        interval := z.core.interval, retests := z.core.retests })

/-- Number of decimal places of the reference number: models
Decimal(str(reference_number)).as_tuple().exponent in utility.round_to_ref
as the least k with reference * 10 ^ k integral (bounded search). -/
def decimalPlaces (q : Rat) : Nat :=
  ((List.range 64).find? (fun k => (q * pow10 k).den = 1)).getD 0

/-- Python round(x, k): round half to even at k decimal places, modelled
exactly on rationals (CPython rounds the binary double, which agrees
except on float-representation edge cases). -/
def pyRound (x : Rat) (k : Nat) : Rat :=
  let y := x * pow10 k
  let f : Int := pyFloor y
  let frac := y - f
  let r : Int :=
    if frac < 1 / 2 then f
    else if frac > 1 / 2 then f + 1
    else if f % 2 = 0 then f else f + 1
  (r : Rat) / pow10 k

/-- round_to_ref from utility.py: round the number to the same number of
decimal places as the reference number. -/
def roundToRef (numberToRound : Rat) (referenceNumber : Rat) : Rat :=
  pyRound numberToRound (decimalPlaces referenceNumber)

/-- POSITION_TYPE enum. -/
inductive PosType where
  | BUY
  | SELL
deriving DecidableEq, Repr

/-- POSITION_STATE enum. -/
inductive PosState where
  | OPEN
  | CLOSED
deriving DecidableEq, Repr

/-- Position fields from trade_objects.py, without the uuid id and account
id, which are carried separately. -/
structure PositionCore where
  ptype : PosType
  instr : String
  contract : Rat
  vol : Rat
  price : Rat
  sl : Option Rat
  tp : Option Rat
  state : PosState
  initialSl : Option Rat
  profit : Rat
  rewardUnits : Option Rat
  entryTime : Nat
  exitTime : Option Nat
  closePrice : Option Rat
deriving DecidableEq, Repr

/-- Position.__init__ field values. -/
def PositionCore.mk0 (ptype : PosType) (instr : String) (entryTime : Nat)
    (contract vol price : Rat) (sl tp : Option Rat) : PositionCore :=
  { ptype := ptype, instr := instr, contract := contract, vol := vol, price := price,
    sl := sl, tp := tp, state := PosState.OPEN, initialSl := sl, profit := 0,
    rewardUnits := none, entryTime := entryTime, exitTime := none, closePrice := none }

/--
Position.close_position (trade_objects.py lines 256-275).  Returns the
updated position and the profit added to the account balance (zero when
the position was already closed).  The reward-units division is exact on
rationals; in Python it would raise ZeroDivisionError if the initial SL
equalled the entry price, which the position constructors rule out.
-/
def closePosition (p : PositionCore) (time : Nat) (price : Rat) : PositionCore × Rat :=
  if p.state = PosState.OPEN then
    let profitPips := if p.ptype = PosType.SELL then p.price - price else price - p.price
    let rw : Option Rat :=
      match p.initialSl with
      | some isl => some (profitPips / pyAbs (p.price - isl))
      | none => none
    ({ p with profit := profitPips, closePrice := some price, state := PosState.CLOSED,
              rewardUnits := rw, exitTime := some time },
     profitPips * p.vol * p.contract)
  else (p, 0)

/-- Position.check_position_and_update (trade_objects.py lines 281-314):
SL is checked before TP, for both directions. -/
def checkPositionAndUpdate (p : PositionCore) (time : Nat) (priceLow priceHigh : Rat) :
    PositionCore × Rat :=
  if p.state = PosState.CLOSED then (p, 0)
  else if p.ptype = PosType.BUY then
    match p.sl with
    | some s =>
        if priceLow ≤ s then closePosition p time s
        else
          match p.tp with
          | some t => if priceHigh ≥ t then closePosition p time t else (p, 0)
          | none => (p, 0)
    | none =>
        match p.tp with
        | some t => if priceHigh ≥ t then closePosition p time t else (p, 0)
        | none => (p, 0)
  else
    match p.sl with
    | some s =>
        if priceHigh ≥ s then closePosition p time s
        else
          match p.tp with
          | some t => if priceLow ≤ t then closePosition p time t else (p, 0)
          | none => (p, 0)
    | none =>
        match p.tp with
        | some t => if priceLow ≤ t then closePosition p time t else (p, 0)
        | none => (p, 0)

/-- Position.get_unrealised_profit. -/
def getUnrealisedProfit (p : PositionCore) (priceLow priceHigh : Rat) : Rat :=
  if p.state = PosState.CLOSED then 0
  else
    let pip :=
      if p.ptype = PosType.BUY then
        if priceLow > p.price then priceHigh - p.price else priceLow - p.price
      else
        if priceHigh < p.price then p.price - priceLow else p.price - priceHigh
    pip * p.contract * p.vol

/-- Position record with its uuid id and account id. -/
structure Position where
  id : String
  accountId : String
  core : PositionCore
deriving DecidableEq, Repr

/-- Comparison `v ≤ x` on an optional float (see oLt). -/
def oLe : Option Rat → Rat → Bool
  | none, _ => false
  | some v, x => decide (v ≤ x)

/-- Comparison `v ≥ x` on an optional float (see oLt). -/
def oGe : Option Rat → Rat → Bool
  | none, _ => false
  | some v, x => decide (v ≥ x)

/-- ShortPosition.__init__ (trade_objects.py lines 347-361): the SL must be
above and the TP below the entry price, else a ValueError is raised. -/
def shortPositionNew (accountId id : String) (instr : String) (entryTime : Nat)
    (contractSize vol price : Rat) (sl tp : Option Rat) : Except String Position :=
  if oLe sl price = true then
    Except.error "Stop loss on a Short position must be above entry price."
  else if oGe tp price = true then
    Except.error "Take profit on a Short position must be below entry price."
  else
    Except.ok { id := id, accountId := accountId,
                core := PositionCore.mk0 PosType.SELL instr entryTime contractSize vol price sl tp }

/-- LongPosition.__init__ (trade_objects.py lines 397-411): the SL must be
below and the TP above the entry price, else a ValueError is raised. -/
def longPositionNew (accountId id : String) (instr : String) (entryTime : Nat)
    (contractSize vol price : Rat) (sl tp : Option Rat) : Except String Position :=
  if oGe sl price = true then
    Except.error "Stop loss on a Long position must be below entry price."
  else if oLe tp price = true then
    Except.error "Take profit on a Long position must be above entry price."
  else
    Except.ok { id := id, accountId := accountId,
                core := PositionCore.mk0 PosType.BUY instr entryTime contractSize vol price sl tp }

/-- ShortPosition.move_sl: raises unless the value is positive and above
the closing price. -/
def moveSlShort (p : PositionCore) (value closePrice : Rat) : Except String PositionCore :=
  if 0 < value ∧ closePrice < value then Except.ok { p with sl := some value }
  else Except.error "Stop loss must be a positive float."

/-- LongPosition.move_sl: raises unless the value is positive and below
the closing price. -/
def moveSlLong (p : PositionCore) (value closePrice : Rat) : Except String PositionCore :=
  if 0 < value ∧ closePrice > value then Except.ok { p with sl := some value }
  else Except.error "Stop loss must be a positive float."

/-- Account balances (trade_objects.Account), without the uuid id. -/
structure AccountCore where
  initialBalance : Rat
  balance : Rat
  equity : Rat
  minEquity : Rat
  maxEquity : Rat
deriving DecidableEq, Repr

/-- Simulated account with its positions. -/
structure Account where
  id : String
  core : AccountCore
  positions : List Position
deriving DecidableEq, Repr

/-- Account.__init__. -/
def accountNew (id : String) (balance : Rat) : Account :=
  { id := id,
    core := { initialBalance := balance, balance := balance, equity := balance,
              minEquity := balance, maxEquity := balance },
    positions := [] }

/-- Account.update_equity (elif: a new extreme updates only one bound). -/
def updateEquity (a : Account) (priceLow priceHigh : Rat) : Account :=
  let unrealised := a.positions.foldl (fun acc p => acc + getUnrealisedProfit p.core priceLow priceHigh) 0
  let equity := a.core.balance + unrealised
  let core := { a.core with equity := equity }
  let core :=
    if equity > core.maxEquity then { core with maxEquity := equity }
    else if equity < core.minEquity then { core with minEquity := equity }
    else core
  { a with core := core }

/-- Account.count_open_positions. -/
def countOpenPositions (a : Account) : Nat :=
  (a.positions.filter (fun p => p.core.state = PosState.OPEN)).length

/-- symbol subrecord of the options. -/
structure Symbol where
  tradeContractSize : Rat
  volumeMin : Rat
  volumeMax : Rat
deriving DecidableEq, Repr

/-- move_sl subrecord of the options. -/
structure MoveSlOptions where
  allow : Bool
  toBreakEvenAtR : Rat
  trailingAtR : Rat
deriving DecidableEq, Repr

/-- Options record consumed by the advisor and the backtest driver. -/
structure Options where
  entry : String
  exitOpt : String
  slLevel : String
  slLevelMargin : Rat
  rewardRatio : Option Rat
  riskPerTrade : Rat
  compoundRisk : Bool
  maxConcurrentTrades : Nat
  excludeHighTrend : Bool
  srZoneInteraction : String
  srZoneEntryMargin : Rat
  srZoneProximityMargin : Rat
  srZoneClearenceFactor : Rat
  moveSl : MoveSlOptions
  instr : String
  symbol : Symbol
  initAccountBalance : Rat
  pstLookbackWindow : Nat
  srLookbackWindow : Nat
deriving DecidableEq, Repr

/-- key_levels block of a signal record. -/
structure KeyLevels where
  high : Option Rat
  low : Option Rat
deriving DecidableEq, Repr

/-- segment_range block of a signal record. -/
structure SegRange where
  highest : Option Rat
  lowest : Option Rat
deriving DecidableEq, Repr

/-- prev_segment block of a signal record. -/
structure PrevSegment where
  segId : String
  segDir : Direction
  segmentRange : SegRange
deriving DecidableEq, Repr

/-- One level of the signal record built by Kraken.get_signal_data. -/
structure SignalLevel where
  segId : String
  segDir : Direction
  candle : Nat
  candleDir : Direction
  bosNum : Nat
  inBos : Bool
  inPullBack : Bool
  highs : List (Option Nat)
  lows : List (Option Nat)
  choc : Bool
  chocConfirmed : Bool
  keyLevels : KeyLevels
  segmentRange : SegRange
  prevSegment : PrevSegment
deriving DecidableEq, Repr

/-- Full signal record (three PST levels plus the SR zones; the zones are
None when no SR structure is configured). -/
structure Signals where
  low : SignalLevel
  mid : SignalLevel
  high : SignalLevel
  srZones : Option (List ZoneRecord)
deriving DecidableEq, Repr

/-- Kraken.get_candle_dir: direction from the stored candle row. -/
def getCandleDir (pstData : List Candle) (ts : Nat) : Except String Direction := do
  let row ← lookupCandle pstData (some ts)
  Except.ok (if row.close > row.openP then Direction.UP else Direction.DOWN)

/-- One level of Kraken.get_signal_data (kraken.py lines 956-992): the
current segment is segments[-1]; with fewer than two segments the
prev_segment block is filled from the current segment itself, otherwise
from segments[-2]. -/
def getSignalLevel (pstData : List Candle) (segs : List PrimarySegment) :
    Except String SignalLevel :=
  match segs.getLast? with
  | none => Except.error "IndexError: no segments"
  | some ps =>
      let prevPs := if segs.length < 2 then ps else (segs.dropLast.getLast?).getD ps
      match ps.core.candles.getLast? with
      | none => Except.error "IndexError: segment has no candles"
      | some lastTs => do
          let cdir ← getCandleDir pstData lastTs
          Except.ok
            { segId := ps.segId
              segDir := ps.core.dir
              candle := lastTs
              candleDir := cdir
              bosNum := ps.core.bosNum
              inBos := ps.core.inBos
              inPullBack := ps.core.inPullBack
              highs := ps.core.keyHighCandles
              lows := ps.core.keyLowCandles
              choc := ps.core.choc
              chocConfirmed := ps.core.chocConfirmed
              keyLevels := { high := ps.core.keyHigh, low := ps.core.keyLow }
              segmentRange := { highest := ps.core.segmentHigh, lowest := ps.core.segmentLow }
              prevSegment :=
                { segId := prevPs.segId
                  segDir := prevPs.core.dir
                  segmentRange := { highest := prevPs.core.segmentHigh,
                                    lowest := prevPs.core.segmentLow } } }

/-- Advisor latch state (advisor.py lines 20-22). -/
structure AdvisorState where
  chocExpired : Bool
  bosExpired : Bool
  modsBosExpired : Bool
deriving DecidableEq, Repr

/-- Fresh advisor: all latches clear. -/
def AdvisorState.init : AdvisorState :=
  { chocExpired := false, bosExpired := false, modsBosExpired := false }

/-- Action emitted by Advisor.modify_positions. -/
inductive Action where
  | close (positionType : PosType) (instr : String)
  | moveSl (positionType : PosType) (instr : String) (newSlTarget : Option Rat)
deriving DecidableEq, Repr

/-- Order dictionary returned by Advisor.build_position. -/
structure Trade where
  ttype : PosType
  instr : String
  vol : Rat
  price : Rat
  sl : Rat
  tp : Option Rat
deriving DecidableEq, Repr

/-- A float required where Python arithmetic/comparison on None would
raise a TypeError. -/
def reqSome : Option Rat → Except String Rat
  | some v => Except.ok v
  | none => Except.error "TypeError: NoneType in arithmetic"

/--
Advisor.build_position (advisor.py lines 258-288):
volume = (balance * risk_per_trade) / (|closing - sl| * contract_size);
below volume_min the order is rejected, above volume_max it is clamped,
otherwise it is rounded via round_to_ref.  (In Python a zero sl distance
would raise ZeroDivisionError; on rationals the volume becomes 0 and the
order is rejected.)
-/
def buildPosition (opts : Options) (ptype : PosType) (closingPrice sl : Rat)
    (tp : Option Rat) (balance : Rat) : Option Trade :=
  let volume := (balance * opts.riskPerTrade) / (pyAbs (closingPrice - sl) * opts.symbol.tradeContractSize)
  if volume < opts.symbol.volumeMin then none
  else
    let volume :=
      if volume > opts.symbol.volumeMax then opts.symbol.volumeMax
      else roundToRef volume opts.symbol.volumeMin
    let takeProfit :=
      match opts.rewardRatio with
      | some rr =>
          let risk := pyAbs (closingPrice - sl)
          some (if ptype = PosType.SELL then closingPrice - rr * risk else closingPrice + rr * risk)
      | none => tp
    some { ttype := ptype, instr := opts.instr, vol := volume, price := closingPrice,
           sl := sl, tp := takeProfit }

/-- Advisor.in_zone: first zone whose interval contains the key level.
Iterating with a None key level raises a TypeError in Python as soon as a
zone is compared. -/
def inZone (srZones : List ZoneRecord) (keyLevel : Option Rat) :
    Except String (Option ZoneRecord) :=
  match srZones with
  | [] => Except.ok none
  | z :: rest =>
      match keyLevel with
      | none => Except.error "TypeError: NoneType comparison"
      | some kl =>
          if kl ≥ z.interval.1 ∧ kl ≤ z.interval.2 then Except.ok (some z)
          else inZone rest keyLevel

/-- Advisor.around_zone: first zone whose proximity band contains the key
level on the side given by the segment direction. -/
def aroundZone (opts : Options) (srZones : List ZoneRecord) (segDir : Direction)
    (keyLevel : Option Rat) : Except String (Option ZoneRecord) :=
  match srZones with
  | [] => Except.ok none
  | z :: rest =>
      match keyLevel with
      | none => Except.error "TypeError: NoneType comparison"
      | some kl =>
          let allowed := (z.interval.2 - z.interval.1) * opts.srZoneProximityMargin
          if (kl ≥ z.interval.1 ∧ kl ≤ z.interval.2 + allowed ∧ segDir = Direction.UP)
              ∨ (kl ≤ z.interval.2 ∧ kl ≥ z.interval.1 - allowed ∧ segDir = Direction.DOWN) then
            Except.ok (some z)
          else aroundZone opts rest segDir keyLevel

/-- Advisor.test_zone_exit. -/
def testZoneExit (opts : Options) (srZone : ZoneRecord) (segDir : Direction)
    (closePrice : Rat) : Bool :=
  let allowed := (srZone.interval.2 - srZone.interval.1) * opts.srZoneEntryMargin
  if segDir = Direction.UP then
    let distance := srZone.interval.1 - closePrice
    decide (distance > 0 ∧ distance ≤ allowed)
  else
    let distance := closePrice - srZone.interval.2
    decide (distance > 0 ∧ distance ≤ allowed)

/-- Advisor.zone_clearence. -/
def zoneClearence (opts : Options) (srZones : List ZoneRecord) (segDir : Direction)
    (zone : ZoneRecord) : Bool :=
  let csize := (zone.interval.2 - zone.interval.1) * opts.srZoneClearenceFactor
  let cz : Rat × Rat :=
    if segDir = Direction.DOWN then (zone.interval.2, zone.interval.2 + csize)
    else (zone.interval.1 - csize, zone.interval.1)
  srZones.all (fun z => decide (z.interval.1 ≥ cz.2 ∨ z.interval.2 ≤ cz.1))

/-- Advisor.test_choc_zone_interaction. -/
def testChocZoneInteraction (opts : Options) (srZones : List ZoneRecord)
    (segDir : Direction) (segRange : SegRange) (closePrice : Rat) :
    Except String (Option (Bool × (Rat × Rat))) := do
  let kl := if segDir = Direction.UP then segRange.highest else segRange.lowest
  let zone ←
    if opts.srZoneInteraction = "TOUCH" then inZone srZones kl
    else if opts.srZoneInteraction = "PROXIMITY" then aroundZone opts srZones segDir kl
    else Except.ok none
  match zone with
  | some z =>
      Except.ok (some (testZoneExit opts z segDir closePrice
                        && zoneClearence opts srZones segDir z, z.interval))
  | none => Except.ok none

/-- Advisor.test_bos_zone_interaction. -/
def testBosZoneInteraction (opts : Options) (srZones : List ZoneRecord)
    (segDir : Direction) (keyLow keyHigh : Option Rat) (closePrice : Rat) :
    Except String (Option (Bool × (Rat × Rat))) := do
  let bosSegDir := if segDir = Direction.DOWN then Direction.UP else Direction.DOWN
  let kl := if segDir = Direction.UP then keyLow else keyHigh
  let zone ←
    if opts.srZoneInteraction = "TOUCH" then inZone srZones kl
    else if opts.srZoneInteraction = "PROXIMITY" then aroundZone opts srZones bosSegDir kl
    else Except.ok none
  match zone with
  | some z =>
      Except.ok (some (testZoneExit opts z bosSegDir closePrice
                        && zoneClearence opts srZones bosSegDir z, z.interval))
  | none => Except.ok none

/-- Mid/high trend gate for a SIMPLE_TREND long entry (advisor.py lines
51-54). -/
def simpleTrendLongGate (opts : Options) (sigs : Signals) : Bool :=
  decide ((sigs.mid.segDir = Direction.UP
            ∨ (sigs.mid.segDir = Direction.DOWN ∧ sigs.mid.choc = true))
    ∧ ((sigs.high.segDir = Direction.UP
          ∨ (sigs.high.segDir = Direction.DOWN ∧ sigs.high.choc = true))
        ∨ opts.excludeHighTrend = true))

/-- Mid/high trend gate for a SIMPLE_TREND short entry (advisor.py lines
78-81). -/
def simpleTrendShortGate (opts : Options) (sigs : Signals) : Bool :=
  decide ((sigs.mid.segDir = Direction.DOWN
            ∨ (sigs.mid.segDir = Direction.UP ∧ sigs.mid.choc = true))
    ∧ ((sigs.high.segDir = Direction.DOWN
          ∨ (sigs.high.segDir = Direction.UP ∧ sigs.high.choc = true))
        ∨ opts.excludeHighTrend = true))

/-- The sr_zones entry of the signals; iterating it when it is None raises
a TypeError in Python (only reachable when no SR structure is configured). -/
def reqZones : Option (List ZoneRecord) → Except String (List ZoneRecord)
  | some zs => Except.ok zs
  | none => Except.error "TypeError: sr_zones is None"

/-- PRICE_ACTION BOS-entry block (advisor.py lines 143-184), reached when
the CHOC block did not return. -/
def priceActionBosBlock (opts : Options) (st : AdvisorState) (closingPrice balance : Rat)
    (sigs : Signals) : Except String (AdvisorState × Option Trade) :=
  if sigs.low.inBos = true ∧ (opts.entry = "CHOC+BOS" ∨ opts.entry = "CHOC_CONFIRMED+BOS")
      ∧ st.bosExpired = false then
    let st := { st with bosExpired := true }
    do
    let zones ← reqZones sigs.srZones
    let tz ← testBosZoneInteraction opts zones sigs.low.segDir
               sigs.low.keyLevels.low sigs.low.keyLevels.high closingPrice
    match tz with
    | some (true, interval) =>
        if sigs.low.segDir = Direction.DOWN ∧ sigs.mid.segDir = Direction.DOWN
            ∧ sigs.high.segDir = Direction.DOWN then do
          let slBase ← reqSome sigs.low.keyLevels.high
          let sl := if slBase > interval.2 then slBase else interval.2
          let sl := sl + (sl - closingPrice) * opts.slLevelMargin
          let tp := opts.rewardRatio.map (fun rr => closingPrice - (sl - closingPrice) * rr)
          Except.ok (st, buildPosition opts PosType.SELL closingPrice sl tp balance)
        else if sigs.low.segDir = Direction.UP ∧ sigs.mid.segDir = Direction.UP
            ∧ sigs.high.segDir = Direction.UP then do
          let slBase ← reqSome sigs.low.keyLevels.low
          let sl := if slBase < interval.1 then slBase else interval.1
          let sl := sl - (closingPrice - sl) * opts.slLevelMargin
          let tp := opts.rewardRatio.map (fun rr => closingPrice + (closingPrice - sl) * rr)
          Except.ok (st, buildPosition opts PosType.BUY closingPrice sl tp balance)
        else Except.ok (st, none)
    | _ => Except.ok (st, none)
  else Except.ok (st, none)

/-- PRICE_ACTION strategy body of Advisor.generate_positions (advisor.py
lines 106-184).  When the CHOC block does not return an order the control
falls through to the BOS block. -/
def priceActionGenerate (opts : Options) (st : AdvisorState) (closingPrice balance : Rat)
    (sigs : Signals) : Except String (AdvisorState × Option Trade) :=
  if (sigs.low.choc = true ∧ (opts.entry = "CHOC" ∨ opts.entry = "CHOC+BOS")
        ∧ st.chocExpired = false)
      ∨ (sigs.low.chocConfirmed = true
          ∧ (opts.entry = "CHOC_CONFIRMED" ∨ opts.entry = "CHOC_CONFIRMED+BOS")) then
    -- the CHOC latch is burnt before the zone test
    let st :=
      if sigs.low.choc = true ∧ (opts.entry = "CHOC" ∨ opts.entry = "CHOC+BOS") then
        { st with chocExpired := true }
      else st
    do
    let zones ← reqZones sigs.srZones
    let tz ← testChocZoneInteraction opts zones sigs.low.segDir sigs.low.segmentRange closingPrice
    match tz with
    | some (true, interval) =>
        if sigs.low.segDir = Direction.UP then do
          let slBase ← reqSome (if opts.slLevel = "KEY_LEVEL" then sigs.low.keyLevels.high
                                else sigs.low.segmentRange.highest)
          let sl := if slBase > interval.2 then slBase else interval.2
          let sl := sl + (sl - closingPrice) * opts.slLevelMargin
          let tp := opts.rewardRatio.map (fun rr => closingPrice - (sl - closingPrice) * rr)
          Except.ok (st, buildPosition opts PosType.SELL closingPrice sl tp balance)
        else do
          let slBase ← reqSome (if opts.slLevel = "KEY_LEVEL" then sigs.low.keyLevels.low
                                else sigs.low.segmentRange.lowest)
          let sl := if slBase < interval.1 then slBase else interval.1
          let sl := sl - (closingPrice - sl) * opts.slLevelMargin
          let tp := opts.rewardRatio.map (fun rr => closingPrice + (closingPrice - sl) * rr)
          Except.ok (st, buildPosition opts PosType.BUY closingPrice sl tp balance)
    | _ => priceActionBosBlock opts st closingPrice balance sigs
  else priceActionBosBlock opts st closingPrice balance sigs

/-- Advisor.generate_positions (advisor.py lines 43-187).  The CHOC entry
latch is reset first whenever low.choc is false; unknown strategies yield
no order. -/
def generatePositions (strategy : String) (opts : Options) (st : AdvisorState)
    (closingPrice balance : Rat) (sigs : Signals) :
    Except String (AdvisorState × Option Trade) :=
  let st := if sigs.low.choc = false then { st with chocExpired := false } else st
  if strategy = "SIMPLE_TREND" then
    if simpleTrendLongGate opts sigs = true then
      if opts.entry = "CHOC_CONFIRMED" then
        if sigs.low.chocConfirmed = true ∧ sigs.low.segDir = Direction.DOWN then do
          let slBase ← reqSome (if opts.slLevel = "KEY_LEVEL" then sigs.low.keyLevels.low
                                else sigs.low.segmentRange.lowest)
          let sl := slBase - (closingPrice - slBase) * opts.slLevelMargin
          let tp := opts.rewardRatio.map (fun rr => closingPrice + (closingPrice - sl) * rr)
          Except.ok (st, buildPosition opts PosType.BUY closingPrice sl tp balance)
        else Except.ok (st, none)
      else if opts.entry = "CHOC" then
        if sigs.low.choc = true ∧ st.chocExpired = false
            ∧ sigs.low.segDir = Direction.DOWN then do
          let slBase ← reqSome (if opts.slLevel = "KEY_LEVEL" then sigs.low.keyLevels.low
                                else sigs.low.segmentRange.lowest)
          let sl := slBase - (closingPrice - slBase) * opts.slLevelMargin
          let tp := opts.rewardRatio.map (fun rr => closingPrice + (closingPrice - sl) * rr)
          Except.ok ({ st with chocExpired := true },
                     buildPosition opts PosType.BUY closingPrice sl tp balance)
        else Except.ok (st, none)
      else Except.ok (st, none)
    else if simpleTrendShortGate opts sigs = true then
      if opts.entry = "CHOC_CONFIRMED" then
        if sigs.low.chocConfirmed = true ∧ sigs.low.segDir = Direction.UP then do
          let slBase ← reqSome (if opts.slLevel = "KEY_LEVEL" then sigs.low.keyLevels.high
                                else sigs.low.segmentRange.highest)
          let sl := slBase + (slBase - closingPrice) * opts.slLevelMargin
          let tp := opts.rewardRatio.map (fun rr => closingPrice - (sl - closingPrice) * rr)
          Except.ok (st, buildPosition opts PosType.SELL closingPrice sl tp balance)
        else Except.ok (st, none)
      else if opts.entry = "CHOC" then
        if sigs.low.choc = true ∧ st.chocExpired = false
            ∧ sigs.low.segDir = Direction.UP then do
          let slBase ← reqSome (if opts.slLevel = "KEY_LEVEL" then sigs.low.keyLevels.high
                                else sigs.low.segmentRange.highest)
          let sl := slBase + (slBase - closingPrice) * opts.slLevelMargin
          -- note: this branch of the source uses (closing_price - sl), not (sl - closing_price)
          let tp := opts.rewardRatio.map (fun rr => closingPrice - (closingPrice - sl) * rr)
          Except.ok ({ st with chocExpired := true },
                     buildPosition opts PosType.SELL closingPrice sl tp balance)
        else Except.ok (st, none)
      else Except.ok (st, none)
    else Except.ok (st, none)
  else if strategy = "PRICE_ACTION" then
    priceActionGenerate opts st closingPrice balance sigs
  else Except.ok (st, none)

/--
Advisor.modify_positions (advisor.py lines 192-254).  Note: when
low.in_bos is false the source calls bos_reset(), which clears the
generate-side BOS entry latch; mods_bos_reset (which would clear the
MOVE_SL latch) is never called anywhere in the source, so modsBosExpired
is never cleared once set.
-/
def modifyPositions (opts : Options) (st : AdvisorState) (closingPrice : Rat)
    (sigs : Signals) : AdvisorState × List Action :=
  let st := if sigs.low.inBos = false then { st with bosExpired := false } else st
  let actions : List Action :=
    if opts.exitOpt = "CHOC_CONFIRMED" then
      if sigs.low.chocConfirmed = true ∧ sigs.low.segDir = Direction.UP then
        [Action.close PosType.BUY opts.instr]
      else if sigs.low.chocConfirmed = true ∧ sigs.low.segDir = Direction.DOWN then
        [Action.close PosType.SELL opts.instr]
      else []
    else if opts.exitOpt = "CHOC" then
      (if sigs.low.choc = true ∧ sigs.low.segDir = Direction.UP then
        [Action.close PosType.BUY opts.instr]
      else []) ++
      (if sigs.low.choc = true ∧ sigs.low.segDir = Direction.DOWN then
        [Action.close PosType.SELL opts.instr]
      else [])
    else []
  if sigs.low.inBos = true ∧ st.modsBosExpired = false then
    ({ st with modsBosExpired := true },
     actions ++ [Action.moveSl
        (if sigs.low.segDir = Direction.DOWN then PosType.SELL else PosType.BUY)
        opts.instr
        (if sigs.low.segDir = Direction.DOWN then sigs.low.keyLevels.high
         else sigs.low.keyLevels.low)])
  else (st, actions)

/-- Stream of uuid4 draws, modelled as an infinite sequence of identifier
strings consumed in call order. -/
abbrev IdStream := Nat → String

/-- Python list / DataFrame row slicing l[a:b] with possibly negative
bounds. -/
def pySlice (l : List α) (a b : Int) : List α :=
  let n : Int := l.length
  let norm : Int → Nat := fun i => if i < 0 then (max 0 (n + i)).toNat else (min i n).toNat
  (l.take (norm b)).drop (norm a)

/-- Python int() truncation toward zero of a float. -/
def pyTrunc (q : Rat) : Int := if q < 0 then -(pyFloor (-q)) else pyFloor q

/-- Test iloc % ratio == 0 with a float ratio (Python float modulo
a - b * floor(a / b); a zero ratio would raise in Python and does not
arise for well-formed series). -/
def modRatioZero (i : Nat) (r : Rat) : Bool :=
  decide ((i : Rat) - r * (pyFloor ((i : Rat) / r) : Rat) = 0)

/-- State of the SR_Structure. -/
structure SRState where
  segsLow : List PrimarySegment
  segsHigh : List PrimarySegment
  rawZones : List RSRZone
  aggrZones : List ASRZone
  mode : Option ZoningMode
  srDataLow : List Candle
  srDataHigh : List Candle
deriving DecidableEq, Repr

/-- State of the Kraken coordinator: segment lists and candle stores per
PST level, plus the optional SR structure. -/
structure KrakenState where
  segsLow : List PrimarySegment
  segsMid : List PrimarySegment
  segsHigh : List PrimarySegment
  pstLow : List Candle
  pstMid : List Candle
  pstHigh : List Candle
  sr : Option SRState
deriving DecidableEq, Repr

/-- Kraken.__init__ with the default pst_timeframes; three fresh segments
consume three uuid draws in dictionary order. -/
def krakenNew (ids : IdStream) (n : Nat) : KrakenState × Nat :=
  ({ segsLow := [{ segId := ids n, core := SegCore.fresh "LOW T-FRAME" }],
     segsMid := [{ segId := ids (n + 1), core := SegCore.fresh "MID T-FRAME" }],
     segsHigh := [{ segId := ids (n + 2), core := SegCore.fresh "HIGH T-FRAME" }],
     pstLow := [], pstMid := [], pstHigh := [], sr := none }, n + 3)

/-- Store a candle row under its timestamp (DataFrame .loc assignment:
overwrite an existing row, else append). -/
def updateRow (data : List Candle) (c : Candle) : List Candle :=
  if data.any (fun d => d.timestamp = c.timestamp) then
    data.map (fun d => if d.timestamp = c.timestamp then c else d)
  else data ++ [c]

/-- Kraken.add_candle on the low level. -/
def krakenAddCandleLow (ids : IdStream) (n : Nat) (k : KrakenState) (c : Candle) :
    KrakenState × Nat :=
  let (segs, n2) := processCandleSegs seedFromParentK ids n k.segsLow c
  ({ k with pstLow := updateRow k.pstLow c, segsLow := segs }, n2)

/-- Kraken.add_candle on the mid level. -/
def krakenAddCandleMid (ids : IdStream) (n : Nat) (k : KrakenState) (c : Candle) :
    KrakenState × Nat :=
  let (segs, n2) := processCandleSegs seedFromParentK ids n k.segsMid c
  ({ k with pstMid := updateRow k.pstMid c, segsMid := segs }, n2)

/-- Kraken.add_candle on the high level. -/
def krakenAddCandleHigh (ids : IdStream) (n : Nat) (k : KrakenState) (c : Candle) :
    KrakenState × Nat :=
  let (segs, n2) := processCandleSegs seedFromParentK ids n k.segsHigh c
  ({ k with pstHigh := updateRow k.pstHigh c, segsHigh := segs }, n2)

/-- Kraken.initialize_new_zones (kraken.py lines 1110-1137): reset or
create the SR structure (two fresh segments), replay the SR candles of
both levels, then compile and merge zones. -/
def initializeNewZones (ids : IdStream) (n : Nat) (k : KrakenState)
    (srLow srHigh : List Candle) (mode : Option ZoningMode) :
    Except String (KrakenState × Nat) := do
  let (sr, n) :=
    match k.sr with
    | some sr0 =>
        ({ sr0 with srDataLow := srLow, srDataHigh := srHigh,
                    segsLow := [{ segId := ids n, core := SegCore.fresh "T1" }],
                    segsHigh := [{ segId := ids (n + 1), core := SegCore.fresh "T2" }] },
         n + 2)
    | none =>
        (({ segsLow := [{ segId := ids n, core := SegCore.fresh "T1" }],
            segsHigh := [{ segId := ids (n + 1), core := SegCore.fresh "T2" }],
            rawZones := [], aggrZones := [], mode := mode,
            srDataLow := srLow, srDataHigh := srHigh } : SRState), n + 2)
  let (segsL, n) := srLow.foldl
      (fun (acc : List PrimarySegment × Nat) c =>
        processCandleSegs seedFromParentSR ids acc.2 acc.1 c) (sr.segsLow, n)
  let (segsH, n) := srHigh.foldl
      (fun (acc : List PrimarySegment × Nat) c =>
        processCandleSegs seedFromParentSR ids acc.2 acc.1 c) (sr.segsHigh, n)
  let sr := { sr with segsLow := segsL, segsHigh := segsH }
  let raw ← compileZones sr.srDataLow sr.srDataHigh sr.segsLow sr.segsHigh
  let (aggr, n) := processZones sr.mode ids n raw sr.aggrZones
  Except.ok ({ k with sr := some { sr with rawZones := raw, aggrZones := aggr } }, n)

/-- Kraken.get_signal_data over the three PST levels. -/
def getSignalData (k : KrakenState) : Except String Signals := do
  let lowSig ← getSignalLevel k.pstLow k.segsLow
  let midSig ← getSignalLevel k.pstMid k.segsMid
  let highSig ← getSignalLevel k.pstHigh k.segsHigh
  Except.ok { low := lowSig, mid := midSig, high := highSig,
              srZones := k.sr.map (fun sr => getZones sr.aggrZones) }

/-- Kraken.initialize: copy the warm-up candles per level and replay them,
then initialize the SR zones when SR data is provided. -/
def krakenInitialize (ids : IdStream) (n : Nat) (k : KrakenState)
    (pstLow pstMid pstHigh : List Candle)
    (srw : Option (List Candle × List Candle)) (mode : Option ZoningMode) :
    Except String (KrakenState × Nat) := do
  let k := { k with pstLow := pstLow, pstMid := pstMid, pstHigh := pstHigh }
  let (segsL, n) := pstLow.foldl
      (fun (acc : List PrimarySegment × Nat) c =>
        processCandleSegs seedFromParentK ids acc.2 acc.1 c) (k.segsLow, n)
  let (segsM, n) := pstMid.foldl
      (fun (acc : List PrimarySegment × Nat) c =>
        processCandleSegs seedFromParentK ids acc.2 acc.1 c) (k.segsMid, n)
  let (segsH, n) := pstHigh.foldl
      (fun (acc : List PrimarySegment × Nat) c =>
        processCandleSegs seedFromParentK ids acc.2 acc.1 c) (k.segsHigh, n)
  let k := { k with segsLow := segsL, segsMid := segsM, segsHigh := segsH }
  match srw with
  | some (sl, sh) => initializeNewZones ids n k sl sh mode
  | none => Except.ok (k, n)

/-- Value string of the direction enum. -/
def Direction.str : Direction → String
  | Direction.UP => "UP"
  | Direction.DOWN => "DOWN"
  | Direction.UNDETERMINED => "?"

/-- Number of segments visited by the annotation window loop
(Kraken.get_annotation lines 1021-1028), walking the segments from the
last backwards. -/
def annotPss (revsegs : List PrimarySegment) (candles : Int) : Nat :=
  match revsegs with
  | [] => 0
  | s :: rest =>
      let candles := candles - s.core.candles.length
      if candles ≤ 0 ∨ rest = [] then 1 else 1 + annotPss rest candles

/-- Running minimum as in the annotation loop: comparing an existing
minimum with a None segment_low raises a TypeError in Python. -/
def pyMinOpt (cur v : Option Rat) : Except String (Option Rat) :=
  match cur with
  | none => Except.ok v
  | some m =>
      match v with
      | none => Except.error "TypeError: NoneType comparison"
      | some x => Except.ok (some (if m > x then x else m))

/-- Running maximum as in the annotation loop (see pyMinOpt). -/
def pyMaxOpt (cur v : Option Rat) : Except String (Option Rat) :=
  match cur with
  | none => Except.ok v
  | some m =>
      match v with
      | none => Except.error "TypeError: NoneType comparison"
      | some x => Except.ok (some (if m < x then x else m))

/-- One annotation level (Kraken.get_annotation). -/
structure AnnotLevel where
  bos : List Nat
  keyHigh : Option Rat
  keyLow : Option Rat
  choc : List Nat
  chocConfirm : List (Option Nat)
  minv : Option Rat
  maxv : Option Rat
  timeframe : String
  dirStr : String
  inChoc : Bool
deriving DecidableEq, Repr

/-- Accumulating loop over the annotated segments (last first). -/
def annotLoop :
    List PrimarySegment →
    List Nat × List Nat × List (Option Nat) × Option Rat × Option Rat →
    Except String (List Nat × List Nat × List (Option Nat) × Option Rat × Option Rat)
  | [], acc => Except.ok acc
  | s :: rest, (bos, choc, cc, mn, mx) => do
      let mn ← pyMinOpt mn s.core.segmentLow
      let mx ← pyMaxOpt mx s.core.segmentHigh
      annotLoop rest (bos ++ s.core.bosCandles, choc ++ s.core.chocCandles,
                      cc ++ [s.core.chocConfirmCandle], mn, mx)

/-- One level of Kraken.get_annotation. -/
def getAnnotLevel (segs : List PrimarySegment) (r : Rat) (candleLength : Nat) :
    Except String AnnotLevel := do
  let pss := annotPss segs.reverse (pyTrunc ((candleLength : Rat) / r))
  let (bos, choc, cc, mn, mx) ← annotLoop (segs.reverse.take pss) ([], [], [], none, none)
  match segs.getLast? with
  | none => Except.error "IndexError: no segments"
  | some activ =>
      Except.ok { bos := bos, keyHigh := activ.core.keyHigh, keyLow := activ.core.keyLow,
                  choc := choc, chocConfirm := cc, minv := mn, maxv := mx,
                  timeframe := activ.core.timeFrame, dirStr := activ.core.dir.str,
                  inChoc := activ.core.choc }

/-- Full annotation record (Kraken.get_annotation). -/
structure AnnotData where
  low : AnnotLevel
  mid : AnnotLevel
  high : AnnotLevel
  srZones : Option (List ZoneRecord)
deriving DecidableEq, Repr

/-- Kraken.get_annotation over the three PST levels. -/
def getAnnotData (k : KrakenState) (rLow rMid rHigh : Rat) (candleLength : Nat) :
    Except String AnnotData := do
  let l ← getAnnotLevel k.segsLow rLow candleLength
  let m ← getAnnotLevel k.segsMid rMid candleLength
  let h ← getAnnotLevel k.segsHigh rHigh candleLength
  Except.ok { low := l, mid := m, high := h,
              srZones := k.sr.map (fun sr => getZones sr.aggrZones) }

/-- Inputs of one backtest run: the five candle series (CSV files), the
start/end timestamps, the strategy and the options. -/
structure RunInputs where
  lowData : List Candle
  midData : List Candle
  highData : List Candle
  srLowData : List Candle
  srHighData : List Candle
  startTs : Nat
  endTs : Nat
  strategy : String
  opts : Options
  srPstCycle : Nat
  srZoningMode : Option ZoningMode
deriving DecidableEq, Repr

/-- Index of a timestamp in a series (pandas Index.get_loc). -/
def indexOfTs (data : List Candle) (ts : Nat) : Option Nat :=
  data.findIdx? (fun c => c.timestamp = ts)

/-- Inter-candle delta of a series from its first two rows (an
insufficient series raises an IndexError in Python). -/
def seriesInterval (data : List Candle) : Except String Rat :=
  match data.get? 0, data.get? 1 with
  | some a, some b => Except.ok ((b.timestamp : Rat) - (a.timestamp : Rat))
  | _, _ => Except.error "IndexError: series too short"

/-- Animus.get_pst_level_ratios: (1, mid/low, high/low) interval ratios. -/
def getPstLevelRatios (low mid high : List Candle) : Except String (Rat × Rat × Rat) := do
  let i1 ← seriesInterval low
  let i2 ← seriesInterval mid
  let i3 ← seriesInterval high
  Except.ok (1, i2 / i1, i3 / i1)

/-- Animus.get_sr_level_ratios.  The source indexes self._pst_data with
the SR level keys "low" and "high", so the ratio is computed from the PST
low and PST high series. -/
def getSrLevelRatios (pstLow pstHigh : List Candle) : Except String (Rat × Rat) := do
  let i1 ← seriesInterval pstLow
  let i2 ← seriesInterval pstHigh
  Except.ok (1, i2 / i1)

/-- Animus.get_pst_sr_iloc_ratio. -/
def getPstSrIlocRatio (pstLow srLow : List Candle) : Except String Rat := do
  let pi ← seriesInterval pstLow
  let si ← seriesInterval srLow
  Except.ok (si / pi)

/-- Animus.load_warm_up_data for PST data. -/
def loadWarmUpPst (lowD midD highD : List Candle) (rLow rMid rHigh : Rat)
    (pstIloc num : Nat) : List Candle × List Candle × List Candle :=
  let startIloc : Nat := if num ≤ pstIloc then pstIloc - num else 0
  let slice := fun (d : List Candle) (r : Rat) =>
    pySlice d (pyTrunc ((startIloc : Rat) / r)) (pyTrunc ((pstIloc : Rat) / r))
  (slice lowD rLow, slice midD rMid, slice highD rHigh)

/-- Animus.load_warm_up_data for SR data (note: the guard compares
num_candles with the _sr_iloc field captured at the start of the run,
while the slice bounds are derived from the current pst_iloc). -/
def loadWarmUpSr (srLowD srHighD : List Candle) (psr srLevelHighR : Rat)
    (pstIloc num srIloc0 : Nat) : List Candle × List Candle :=
  let startIloc : Int :=
    if num ≤ srIloc0 then pyTrunc ((pstIloc : Rat) / psr - (num : Rat) / psr) else 0
  let srIlocQ : Rat := (pstIloc : Rat) / psr
  (pySlice srLowD (pyTrunc ((startIloc : Rat) / 1)) (pyTrunc (srIlocQ / 1)),
   pySlice srHighD (pyTrunc ((startIloc : Rat) / srLevelHighR)) (pyTrunc (srIlocQ / srLevelHighR)))

/-- Mutable state of the simulation loop (plus the log of the signal
records published to the advisor). -/
structure SimState where
  kraken : KrakenState
  adv : AdvisorState
  account : Account
  nextId : Nat
  signalsLog : List Signals
deriving DecidableEq, Repr

/-- CLOSE action applied to every matching open position (animus.py lines
303-309); returns the new list and the realized profit added to the
balance. -/
def applyCloseAll (positions : List Position) (pt : PosType) (instr : String)
    (time : Nat) (closeP : Rat) : List Position × Rat :=
  positions.foldl
    (fun (acc : List Position × Rat) p =>
      if p.core.ptype = pt ∧ p.core.instr = instr ∧ p.core.state = PosState.OPEN then
        let (c, d) := closePosition p.core time closeP
        (acc.1 ++ [{ p with core := c }], acc.2 + d)
      else (acc.1 ++ [p], acc.2))
    ([], 0)

/-- Dispatch of Position.move_sl by position type. -/
def moveSlOf (p : PositionCore) (value closePrice : Rat) : Except String PositionCore :=
  if p.ptype = PosType.BUY then moveSlLong p value closePrice
  else moveSlShort p value closePrice

/-- MOVE_SL policy applied to one open position (animus.py lines 317-335).
A None initial SL or a None new_sl_target would raise a TypeError in the
comparisons. -/
def applyMoveSlOne (opts : Options) (p : PositionCore) (target : Option Rat)
    (closeP : Rat) : Except String PositionCore :=
  if opts.moveSl.allow = true then do
    let isl ← reqSome p.initialSl
    let r := (p.price - closeP) / (isl - p.price)
    if r ≥ opts.moveSl.toBreakEvenAtR ∧ r ≤ opts.moveSl.trailingAtR then
      moveSlOf p p.price closeP
    else if r > opts.moveSl.trailingAtR then do
      let t ← reqSome target
      if t > p.price ∧ p.ptype = PosType.BUY then
        moveSlOf p (t - (p.price - isl) * opts.slLevelMargin) closeP
      else if t < p.price ∧ p.ptype = PosType.SELL then
        moveSlOf p (t + (isl - p.price) * opts.slLevelMargin) closeP
      else moveSlOf p p.price closeP
    else Except.ok p
  else Except.ok p

/-- MOVE_SL action applied to every matching open position. -/
def applyMoveSlAll (opts : Options) (positions : List Position) (pt : PosType)
    (instr : String) (target : Option Rat) (closeP : Rat) :
    Except String (List Position) :=
  match positions with
  | [] => Except.ok []
  | p :: rest =>
      if p.core.ptype = pt ∧ p.core.instr = instr ∧ p.core.state = PosState.OPEN then do
        let c ← applyMoveSlOne opts p.core target closeP
        let rs ← applyMoveSlAll opts rest pt instr target closeP
        Except.ok ({ p with core := c } :: rs)
      else do
        let rs ← applyMoveSlAll opts rest pt instr target closeP
        Except.ok (p :: rs)

/-- Advisor actions applied in list order (animus.py lines 301-335). -/
def applyActions (opts : Options) (acc : Account) (time : Nat) (closeP : Rat) :
    List Action → Except String Account
  | [] => Except.ok acc
  | Action.close pt instr :: rest =>
      let (ps, delta) := applyCloseAll acc.positions pt instr time closeP
      applyActions opts
        { acc with positions := ps,
                   core := { acc.core with balance := acc.core.balance + delta } }
        time closeP rest
  | Action.moveSl pt instr target :: rest => do
      let ps ← applyMoveSlAll opts acc.positions pt instr target closeP
      applyActions opts { acc with positions := ps } time closeP rest

/--
Order placement (animus.py lines 263-294): when the advisor produced an
order and fewer than max_concurrent_trades positions are open, the
Short/Long position is constructed (consuming a uuid draw) and appended.
A ValueError raised by the constructor propagates: run_backtest has no
handler around it, so the backtest aborts.
-/
def placeTrade (ids : IdStream) (n : Nat) (opts : Options) (acc : Account)
    (trade : Option Trade) (time : Nat) : Except String (Account × Nat) :=
  match trade with
  | some t =>
      if countOpenPositions acc < opts.maxConcurrentTrades then do
        let p ←
          if t.ttype = PosType.SELL then
            shortPositionNew acc.id (ids n) t.instr time opts.symbol.tradeContractSize
              t.vol t.price (some t.sl) t.tp
          else
            longPositionNew acc.id (ids n) t.instr time opts.symbol.tradeContractSize
              t.vol t.price (some t.sl) t.tp
        Except.ok ({ acc with positions := acc.positions ++ [p] }, n + 1)
      else Except.ok (acc, n)
  | none => Except.ok (acc, n)

/-- Positions updated against the candle range (animus.py lines 255-256);
realized closes are added to the balance. -/
def updateAllPositions (acc : Account) (time : Nat) (lowP highP : Rat) : Account :=
  let r := acc.positions.foldl
    (fun (st : List Position × Rat) p =>
      let (c, d) := checkPositionAndUpdate p.core time lowP highP
      (st.1 ++ [{ p with core := c }], st.2 + d))
    ([], 0)
  { acc with positions := r.1,
             core := { acc.core with balance := acc.core.balance + r.2 } }

/-- Tail of one run_backtest loop iteration (animus.py lines 216-344),
once the kraken state k and uuid counter n of the step are settled:
signals, advisor, position updates, order placement and modify actions. -/
def simStepCore (inp : RunInputs) (ids : IdStream) (st : SimState) (row : Candle)
    (k : KrakenState) (n : Nat) : Except String SimState := do
  let sigs ← getSignalData k
  let bal := if inp.opts.compoundRisk = false then st.account.core.initialBalance
             else st.account.core.balance
  let (adv, trade) ← generatePositions inp.strategy inp.opts st.adv row.close bal sigs
  let mods := modifyPositions inp.opts adv row.close sigs
  -- update positions and equity
  let acc := updateAllPositions st.account row.timestamp row.low row.high
  let acc := updateEquity acc row.low row.high
  -- place the new order, then apply the modify actions
  let (acc, n) ← placeTrade ids n inp.opts acc trade row.timestamp
  let acc ← applyActions inp.opts acc row.timestamp row.close mods.2
  Except.ok { kraken := k, adv := mods.1, account := acc, nextId := n,
              signalsLog := st.signalsLog ++ [sigs] }

/-- One iteration of the run_backtest candle loop (animus.py lines
195-344), at low-TF index i with candle row. -/
def simStep (inp : RunInputs) (ids : IdStream) (psr srHighRel rMid rHigh : Rat)
    (srIloc0 : Nat) (st : SimState) (i : Nat) (row : Candle) :
    Except String SimState := do
  -- renew SR levels at intervals
  let (k, n) ←
    if i % inp.srPstCycle = 0 then
      let (sl, sh) := loadWarmUpSr inp.srLowData inp.srHighData psr srHighRel i
        inp.opts.srLookbackWindow srIloc0
      initializeNewZones ids st.nextId st.kraken sl sh none
    else Except.ok (st.kraken, st.nextId)
  -- feed the low candle, and the mid/high candles at their intervals
  let (k, n) := krakenAddCandleLow ids n k row
  let (k, n) ←
    if modRatioZero i rMid then
      match inp.midData.get? (pyTrunc ((i : Rat) / rMid)).toNat with
      | some c => Except.ok (krakenAddCandleMid ids n k c)
      | none => Except.error "IndexError: mid candle"
    else Except.ok (k, n)
  let (k, n) ←
    if modRatioZero i rHigh then
      match inp.highData.get? (pyTrunc ((i : Rat) / rHigh)).toNat with
      | some c => Except.ok (krakenAddCandleHigh ids n k c)
      | none => Except.error "IndexError: high candle"
    else Except.ok (k, n)
  -- signals and advisor actions, position updates, order placement
  simStepCore inp ids st row k n

/-- Position row as persisted/published (animus.py lines 227-238 and
367-379): no uuid fields. -/
structure TradeRecord where
  ttype : PosType
  entryTime : Nat
  exitTime : Option Nat
  price : Rat
  tsl : Option Rat
  sl : Option Rat
  tp : Option Rat
  closeP : Option Rat
  state : PosState
deriving DecidableEq, Repr

/-- Projection of a position to its published trade record. -/
def tradeRecordOf (p : Position) : TradeRecord :=
  { ttype := p.core.ptype, entryTime := p.core.entryTime, exitTime := p.core.exitTime,
    price := p.core.price, tsl := p.core.sl, sl := p.core.initialSl, tp := p.core.tp,
    closeP := p.core.closePrice, state := p.core.state }

/-- Observable output of one backtest run: the signal records of every
step, the final positions, their published trade records, the final
balance, and the end-of-run annotation. -/
structure RunOutput where
  signalsLog : List Signals
  positions : List Position
  trades : List TradeRecord
  finalBalance : Rat
  annotData : AnnotData
deriving DecidableEq, Repr

/--
Animus.run_backtest (animus.py lines 130-350), over preloaded candle
series.  The id stream models the uuid4 draws (account, segments, zones,
positions). A missing end timestamp falls back to len(self._pst_data)-1,
which is the length of the level dictionary (3), not of the series.  The
final annotation is produced with the level ratios and the default
annotation window of 100 candles.
-/
def runBacktest (inp : RunInputs) (ids : IdStream) : Except String RunOutput := do
  let (rLow, rMid, rHigh) ← getPstLevelRatios inp.lowData inp.midData inp.highData
  let (_r1, srHighRel) ← getSrLevelRatios inp.lowData inp.highData
  let psr ← getPstSrIlocRatio inp.lowData inp.srLowData
  let pstIloc ←
    match indexOfTs inp.lowData inp.startTs with
    | some i => Except.ok i
    | none => Except.error "KeyError: start"
  let pstLastIloc := (indexOfTs inp.lowData inp.endTs).getD (3 - 1)
  let srIloc0 ←
    match indexOfTs inp.srLowData inp.startTs with
    | some i => Except.ok i
    | none => Except.error "KeyError: sr start"
  let (k, n) := krakenNew ids 0
  let (pl, pm, ph) := loadWarmUpPst inp.lowData inp.midData inp.highData rLow rMid rHigh
    pstIloc inp.opts.pstLookbackWindow
  let (sl, sh) := loadWarmUpSr inp.srLowData inp.srHighData psr srHighRel pstIloc
    inp.opts.srLookbackWindow srIloc0
  let (k, n) ← krakenInitialize ids n k pl pm ph (some (sl, sh)) inp.srZoningMode
  let acc := accountNew (ids n) inp.opts.initAccountBalance
  let st0 : SimState := { kraken := k, adv := AdvisorState.init, account := acc,
                          nextId := n + 1, signalsLog := [] }
  let idxRows := (inp.lowData.enum.drop pstIloc).take (pstLastIloc + 1 - pstIloc)
  let fin ← idxRows.foldlM
    (fun st (pair : Nat × Candle) =>
      simStep inp ids psr srHighRel rMid rHigh srIloc0 st pair.1 pair.2) st0
  let annotD ← getAnnotData fin.kraken rLow rMid rHigh 100
  Except.ok { signalsLog := fin.signalsLog, positions := fin.account.positions,
              trades := fin.account.positions.map tradeRecordOf,
              finalBalance := fin.account.core.balance,
              annotData := annotD }

/-- Identifier erasure on a segment. -/
def stripSeg (s : PrimarySegment) : PrimarySegment := { s with segId := "" }

/-- Identifier erasure on an aggregated zone. -/
def stripZone (z : ASRZone) : ASRZone := { z with id := "" }

/-- Identifier erasure on a published zone record. -/
def stripZoneRecord (z : ZoneRecord) : ZoneRecord := { z with id := "" }

/-- Identifier erasure on one signal level. -/
def stripSigLevel (l : SignalLevel) : SignalLevel :=
  { l with segId := "", prevSegment := { l.prevSegment with segId := "" } }

/-- Identifier erasure on a signal record. -/
def stripSignals (s : Signals) : Signals :=
  { low := stripSigLevel s.low, mid := stripSigLevel s.mid, high := stripSigLevel s.high,
    srZones := s.srZones.map (List.map stripZoneRecord) }

/-- Identifier erasure on a position. -/
def stripPosition (p : Position) : Position := { p with id := "", accountId := "" }

/-- Identifier erasure on the annotation (only the SR zone records carry
ids). -/
def stripAnnot (a : AnnotData) : AnnotData :=
  { a with srZones := a.srZones.map (List.map stripZoneRecord) }

/-- Identifier erasure on a run output: uuid-derived fields blanked, all
other data unchanged (trade records and balance carry no ids). -/
def stripOutput (o : RunOutput) : RunOutput :=
  { signalsLog := o.signalsLog.map stripSignals,
    positions := o.positions.map stripPosition,
    trades := o.trades,
    finalBalance := o.finalBalance,
    annotData := stripAnnot o.annotData }

/-- Identifier erasure on a run result. -/
def stripRun : Except String RunOutput → Except String RunOutput
  | Except.ok o => Except.ok (stripOutput o)
  | Except.error e => Except.error e

/-- The all-blank id stream, used as the normal form for the determinism
proof. -/
def zid : IdStream := fun _ => ""

/-- Identifier erasure on the SR structure state. -/
def stripSR (sr : SRState) : SRState :=
  { sr with segsLow := sr.segsLow.map stripSeg, segsHigh := sr.segsHigh.map stripSeg,
            aggrZones := sr.aggrZones.map stripZone }

/-- Identifier erasure on the Kraken state. -/
def stripKraken (k : KrakenState) : KrakenState :=
  { k with segsLow := k.segsLow.map stripSeg, segsMid := k.segsMid.map stripSeg,
           segsHigh := k.segsHigh.map stripSeg, sr := k.sr.map stripSR }

/-- Identifier erasure on the account. -/
def stripAccount (a : Account) : Account :=
  { a with id := "", positions := a.positions.map stripPosition }

/-- Identifier erasure on the simulation state. -/
def stripSim (st : SimState) : SimState :=
  { st with kraken := stripKraken st.kraken, account := stripAccount st.account,
            signalsLog := st.signalsLog.map stripSignals }

/-! Claim-side predicates and concrete inputs used by the theorems. -/

/-- Invariant P1 claimed by the spec for every segment:
segment_low ≤ key_low ≤ key_high ≤ segment_high whenever all four are set. -/
def segP1 (s : SegCore) : Prop :=
  ∀ sl kl kh sh, s.segmentLow = some sl → s.keyLow = some kl → s.keyHigh = some kh →
    s.segmentHigh = some sh → sl ≤ kl ∧ kl ≤ kh ∧ kh ≤ sh

/-- Bound on an optional level by an optional segment extreme, upper side:
whenever the level is set, the extreme is set and not below it. -/
def leOpt (a b : Option Rat) : Prop :=
  ∀ v, a = some v → ∃ w, b = some w ∧ v ≤ w

/-- Bound on an optional level by an optional segment extreme, lower side:
whenever the level is set, the extreme is set and not above it. -/
def geOpt (a b : Option Rat) : Prop :=
  ∀ v, a = some v → ∃ w, b = some w ∧ w ≤ v

/-- The provable part of P1 for segments that never inherited levels: the
key and last levels stay within the segment extremes. -/
def keyWithinSegment (s : SegCore) : Prop :=
  leOpt s.keyHigh s.segmentHigh ∧ leOpt s.lastHigh s.segmentHigh ∧
  geOpt s.keyLow s.segmentLow ∧ geOpt s.lastLow s.segmentLow

/-- Candle-range context during one add_candle call: the segment extremes
are set and cover the current candle. -/
def coversCandle (s : SegCore) (c : Candle) : Prop :=
  (∃ sh, s.segmentHigh = some sh ∧ c.high ≤ sh) ∧
  (∃ sl, s.segmentLow = some sl ∧ sl ≤ c.low)

/-- Spec-words definition for C4: the intervals have a non-empty
intersection (as closed intervals). -/
def intervalsIntersect (a b : Rat × Rat) : Prop :=
  max a.1 b.1 ≤ min a.2 b.2

/-- Spec-words definition for C6: rounding down to the nearest multiple of
the reference volume. -/
def specRoundDown (q m : Rat) : Rat := m * (pyFloor (q / m) : Rat)

/-- Candle stream folded into a fresh first segment. -/
def candlesFold (tf : String) (cs : List Candle) : SegCore :=
  cs.foldl addCandle (SegCore.fresh tf)

/-- First candle of the C5 counterexample (bullish, range 100-110). -/
def c5a : Candle := { timestamp := 1, openP := 100, high := 110, low := 100, close := 109 }

/-- Second candle of the C5 counterexample (bearish pullback that gaps
above the old key high). -/
def c5b : Candle := { timestamp := 2, openP := 119, high := 120, low := 115, close := 116 }

/-- Third candle of the C5 counterexample (bullish BOS close above the key
high, with its low above the old key high as well). -/
def c5c : Candle := { timestamp := 3, openP := 124, high := 131, low := 124, close := 130 }

/-- Baseline signal level used by the concrete advisor scenarios. -/
def sigLevelBase : SignalLevel :=
  { segId := "seg", segDir := Direction.DOWN, candle := 0, candleDir := Direction.DOWN,
    bosNum := 0, inBos := false, inPullBack := false, highs := [], lows := [],
    choc := false, chocConfirmed := false,
    keyLevels := { high := some 10, low := some 5 },
    segmentRange := { highest := some 10, lowest := some 5 },
    prevSegment := { segId := "seg", segDir := Direction.DOWN,
                     segmentRange := { highest := some 10, lowest := some 5 } } }

/-- Signals whose low level reports the given in_bos flag. -/
def sigsInBos (b : Bool) : Signals :=
  { low := { sigLevelBase with inBos := b }, mid := sigLevelBase, high := sigLevelBase,
    srZones := some [] }

/-- Concrete options used by the advisor/driver scenarios. -/
def optsStd : Options :=
  { entry := "CHOC", exitOpt := "NONE", slLevel := "KEY_LEVEL", slLevelMargin := 0,
    rewardRatio := none, riskPerTrade := 1 / 100, compoundRisk := true,
    maxConcurrentTrades := 5, excludeHighTrend := false, srZoneInteraction := "TOUCH",
    srZoneEntryMargin := 0, srZoneProximityMargin := 0, srZoneClearenceFactor := 0,
    moveSl := { allow := false, toBreakEvenAtR := 1, trailingAtR := 2 },
    instr := "EURUSD",
    symbol := { tradeContractSize := 1, volumeMin := 1 / 100, volumeMax := 100 },
    initAccountBalance := 18, pstLookbackWindow := 10, srLookbackWindow := 10 }

/-- Aggregated zone of the C4 counterexample: interval [2, 3]. -/
def aggrC4 : ASRZoneCore :=
  { ztype := ZoneType.RESISTANCE, x := 5, interval := (2, 3), retests := 0 }

/-- Raw zone of the C4 counterexample: interval [1, 3], sharing its upper
bound with the aggregate. -/
def rawC4 : RSRZone :=
  { ztype := ZoneType.RESISTANCE, x := 9, fullCandle := (1, 3), body := (1, 3),
    wick := (1, 3) }

/-- DOWN segment state of the C8 scenario: in BOS, not pulled back, with
tracked last levels. -/
def segC8 : SegCore :=
  { timeFrame := "LOW T-FRAME", dir := Direction.DOWN,
    keyHigh := some 125, keyLow := some 95, lastHigh := some 120, lastLow := some 90,
    keyHighCandle := some 3, keyLowCandle := some 4, lastHighCandle := some 6,
    lastLowCandle := some 5, choc := false, chocConfirmed := false,
    segmentHigh := some 125, segmentLow := some 90, bosNum := 1, inBos := true,
    inPullBack := false, inChocPullBack := false, candles := [3, 4, 5, 6],
    bosCandles := [4], chocCandles := [], keyHighCandles := [some 3],
    keyLowCandles := [some 4], highestCandle := some 3, lowestCandle := some 5,
    chocConfirmCandle := none }

/-- Bullish candle that triggers the DOWN-segment BOS pullback of C8. -/
def c8 : Candle := { timestamp := 7, openP := 100, high := 105, low := 99, close := 104 }

/-- Invalid long order of the C9 scenario: SL above the entry price. -/
def tradeC9 : Trade :=
  { ttype := PosType.BUY, instr := "EURUSD", vol := 1, price := 100, sl := 105, tp := none }

/-- Candle of the C10 witness scenario. -/
def cW : Candle := { timestamp := 1, openP := 1, high := 2, low := 0, close := 2 }

/-- Stored candle rows of the C10 witness scenario. -/
def pdW : List Candle := [cW]

/-- Single segment of the C10 witness scenario: a fresh segment after one
candle. -/
def sW : PrimarySegment := { segId := "w", core := addCandle (SegCore.fresh "T") cW }

/-- UP segment in the pulled-back state with key high 10, used by the C7
witness. -/
def sC7 : SegCore :=
  { timeFrame := "LOW T-FRAME", dir := Direction.UP,
    keyHigh := some 10, keyLow := some 5, lastHigh := some 10, lastLow := some 6,
    keyHighCandle := some 1, keyLowCandle := some 0, lastHighCandle := some 1,
    lastLowCandle := some 2, choc := false, chocConfirmed := false,
    segmentHigh := some 10, segmentLow := some 5, bosNum := 1, inBos := false,
    inPullBack := true, inChocPullBack := false, candles := [0, 1, 2],
    bosCandles := [1], chocCandles := [], keyHighCandles := [some 1],
    keyLowCandles := [some 0], highestCandle := some 1, lowestCandle := some 0,
    chocConfirmCandle := none }

/-- Bullish candle closing exactly on the key high of sC7. -/
def cC7 : Candle := { timestamp := 3, openP := 8, high := 11, low := 7, close := 10 }

/-- Expected signal level of the C10 witness scenario. -/
def rW : SignalLevel :=
  { segId := "w", segDir := Direction.UP, candle := 1, candleDir := Direction.UP,
    bosNum := 0, inBos := true, inPullBack := false, highs := [], lows := [],
    choc := false, chocConfirmed := false,
    keyLevels := { high := some 2, low := some 0 },
    segmentRange := { highest := some 2, lowest := some 0 },
    prevSegment := { segId := "w", segDir := Direction.UP,
                     segmentRange := { highest := some 2, lowest := some 0 } } }

/-- Concrete candle used by the determinism counterexample: a bullish
candle climbing one unit per timestamp. -/
def c1cand (i : Nat) : Candle :=
  { timestamp := i, openP := 100 + (i : Rat), high := 105 + (i : Rat),
    low := 99 + (i : Rat), close := 104 + (i : Rat) }

/-- Four-candle series shared by all five inputs of the counterexample run. -/
def c1series : List Candle := [c1cand 0, c1cand 1, c1cand 2, c1cand 3]

/-- Concrete backtest inputs for the determinism claim: identical candle
files on all levels, start at timestamp 2, end at timestamp 3, no strategy
orders, SR renewal cycle longer than the run. -/
def inpC1 : RunInputs :=
  { lowData := c1series, midData := c1series, highData := c1series,
    srLowData := c1series, srHighData := c1series,
    startTs := 2, endTs := 3, strategy := "NONE", opts := optsStd,
    srPstCycle := 100, srZoningMode := none }

/-! Theorems. -/
theorem leOpt_none (b : Option Rat) : leOpt none b := fun v hv => by cases hv

theorem geOpt_none (b : Option Rat) : geOpt none b := fun v hv => by cases hv

theorem leOpt_of_cover {b : Option Rat} {x : Rat} (hc : ∃ sh, b = some sh ∧ x ≤ sh) :
    leOpt (some x) b := by
  obtain ⟨sh, hb, hx⟩ := hc
  intro v hv
  cases hv
  exact ⟨sh, hb, hx⟩

theorem geOpt_of_cover {b : Option Rat} {x : Rat} (hc : ∃ sl, b = some sl ∧ sl ≤ x) :
    geOpt (some x) b := by
  obtain ⟨sl, hb, hx⟩ := hc
  intro v hv
  cases hv
  exact ⟨sl, hb, hx⟩

theorem cover_transport {s s2 : SegCore} {c : Candle} (hc : coversCandle s c)
    (hh : s2.segmentHigh = s.segmentHigh) (hl : s2.segmentLow = s.segmentLow) :
    coversCandle s2 c := by
  obtain ⟨⟨sh, h1, h2⟩, ⟨sl, h3, h4⟩⟩ := hc
  exact ⟨⟨sh, by rw [hh, h1], h2⟩, ⟨sl, by rw [hl, h3], h4⟩⟩

theorem upPullBack_inv {s : SegCore} {c : Candle} (h : keyWithinSegment s) :
    keyWithinSegment (upPullBack s c) ∧ (upPullBack s c).segmentHigh = s.segmentHigh
      ∧ (upPullBack s c).segmentLow = s.segmentLow := by
  unfold upPullBack
  split
  · exact ⟨⟨h.2.1, h.2.1, h.2.2.1, h.2.2.2⟩, rfl, rfl⟩
  · exact ⟨h, rfl, rfl⟩

theorem upChocPullBack_inv {s : SegCore} {c : Candle} (h : keyWithinSegment s)
    (hc : coversCandle s c) :
    keyWithinSegment (upChocPullBack s c) ∧ (upChocPullBack s c).segmentHigh = s.segmentHigh
      ∧ (upChocPullBack s c).segmentLow = s.segmentLow := by
  unfold upChocPullBack
  split
  · exact ⟨⟨h.1, leOpt_of_cover hc.1, h.2.2.2, h.2.2.2⟩, rfl, rfl⟩
  · exact ⟨h, rfl, rfl⟩

theorem upBosOrChoc_inv {s : SegCore} {c : Candle} (h : keyWithinSegment s)
    (hc : coversCandle s c) :
    keyWithinSegment (upBosOrChoc s c) ∧ (upBosOrChoc s c).segmentHigh = s.segmentHigh
      ∧ (upBosOrChoc s c).segmentLow = s.segmentLow := by
  unfold upBosOrChoc
  split
  · dsimp only
    split
    · exact ⟨⟨h.1, h.2.1, geOpt_of_cover hc.2, geOpt_none _⟩, rfl, rfl⟩
    · exact ⟨⟨h.1, h.2.1, h.2.2.2, geOpt_none _⟩, rfl, rfl⟩
  · split
    · split
      · exact ⟨⟨h.1, h.2.1, h.2.2.1, geOpt_of_cover hc.2⟩, rfl, rfl⟩
      · split
        · exact ⟨⟨h.2.1, h.2.1, h.2.2.1, geOpt_of_cover hc.2⟩, rfl, rfl⟩
        · exact ⟨h, rfl, rfl⟩
    · exact ⟨h, rfl, rfl⟩

theorem downPullBack_inv {s : SegCore} {c : Candle} (h : keyWithinSegment s) :
    keyWithinSegment (downPullBack s c) ∧ (downPullBack s c).segmentHigh = s.segmentHigh
      ∧ (downPullBack s c).segmentLow = s.segmentLow := by
  unfold downPullBack
  split
  · exact ⟨⟨h.1, h.2.1, h.2.2.2, h.2.2.2⟩, rfl, rfl⟩
  · exact ⟨h, rfl, rfl⟩

theorem downChocPullBack_inv {s : SegCore} {c : Candle} (h : keyWithinSegment s)
    (hc : coversCandle s c) :
    keyWithinSegment (downChocPullBack s c) ∧ (downChocPullBack s c).segmentHigh = s.segmentHigh
      ∧ (downChocPullBack s c).segmentLow = s.segmentLow := by
  unfold downChocPullBack
  split
  · exact ⟨⟨h.2.1, h.2.1, h.2.2.1, geOpt_of_cover hc.2⟩, rfl, rfl⟩
  · exact ⟨h, rfl, rfl⟩

theorem downBosOrChoc_inv {s : SegCore} {c : Candle} (h : keyWithinSegment s)
    (hc : coversCandle s c) :
    keyWithinSegment (downBosOrChoc s c) ∧ (downBosOrChoc s c).segmentHigh = s.segmentHigh
      ∧ (downBosOrChoc s c).segmentLow = s.segmentLow := by
  unfold downBosOrChoc
  split
  · dsimp only
    split
    · exact ⟨⟨leOpt_of_cover hc.1, leOpt_none _, h.2.2.1, h.2.2.2⟩, rfl, rfl⟩
    · exact ⟨⟨h.2.1, leOpt_none _, h.2.2.1, h.2.2.2⟩, rfl, rfl⟩
  · split
    · split
      · exact ⟨⟨h.1, leOpt_of_cover hc.1, h.2.2.1, h.2.2.2⟩, rfl, rfl⟩
      · split
        · exact ⟨⟨h.1, leOpt_of_cover hc.1, h.2.2.2, h.2.2.2⟩, rfl, rfl⟩
        · exact ⟨h, rfl, rfl⟩
    · exact ⟨h, rfl, rfl⟩

theorem setLastHigh_fields (s : SegCore) (c : Candle) :
    (setLastHigh s c).keyHigh = s.keyHigh ∧ (setLastHigh s c).keyLow = s.keyLow ∧
    (setLastHigh s c).segmentHigh = s.segmentHigh ∧
    (setLastHigh s c).segmentLow = s.segmentLow ∧
    (setLastHigh s c).lastLow = s.lastLow ∧
    ((setLastHigh s c).lastHigh = s.lastHigh ∨ (setLastHigh s c).lastHigh = some c.high) := by
  unfold setLastHigh
  repeat' split
  all_goals simp

theorem setLastLow_fields (s : SegCore) (c : Candle) :
    (setLastLow s c).keyHigh = s.keyHigh ∧ (setLastLow s c).keyLow = s.keyLow ∧
    (setLastLow s c).segmentHigh = s.segmentHigh ∧
    (setLastLow s c).segmentLow = s.segmentLow ∧
    (setLastLow s c).lastHigh = s.lastHigh ∧
    ((setLastLow s c).lastLow = s.lastLow ∨ (setLastLow s c).lastLow = some c.low) := by
  unfold setLastLow
  repeat' split
  all_goals simp

theorem setLastHighLow_inv {s : SegCore} {c : Candle} (h : keyWithinSegment s)
    (hc : coversCandle s c) : keyWithinSegment (setLastHighLow s c) := by
  obtain ⟨hkh, hkl, hsh, hsl, hll, hlh⟩ := setLastHigh_fields s c
  obtain ⟨hkh2, hkl2, hsh2, hsl2, hlh2, hll2⟩ := setLastLow_fields (setLastHigh s c) c
  unfold setLastHighLow
  refine ⟨?_, ?_, ?_, ?_⟩
  · rw [hkh2, hkh, hsh2, hsh]; exact h.1
  · rw [hsh2, hsh, hlh2]
    rcases hlh with e | e
    · rw [e]; exact h.2.1
    · rw [e]; exact leOpt_of_cover hc.1
  · rw [hkl2, hkl, hsl2, hsl]; exact h.2.2.1
  · rw [hsl2, hsl]
    rcases hll2 with e | e
    · rw [e, hll]; exact h.2.2.2
    · rw [e]; exact geOpt_of_cover hc.2

theorem updateSegmentHigh_fields (s : SegCore) (c : Candle) :
    (updateSegmentHigh s c).keyHigh = s.keyHigh ∧ (updateSegmentHigh s c).keyLow = s.keyLow ∧
    (updateSegmentHigh s c).lastHigh = s.lastHigh ∧
    (updateSegmentHigh s c).lastLow = s.lastLow ∧
    (updateSegmentHigh s c).segmentLow = s.segmentLow := by
  unfold updateSegmentHigh
  repeat' split
  all_goals simp

theorem updateSegmentLow_fields (s : SegCore) (c : Candle) :
    (updateSegmentLow s c).keyHigh = s.keyHigh ∧ (updateSegmentLow s c).keyLow = s.keyLow ∧
    (updateSegmentLow s c).lastHigh = s.lastHigh ∧
    (updateSegmentLow s c).lastLow = s.lastLow ∧
    (updateSegmentLow s c).segmentHigh = s.segmentHigh := by
  unfold updateSegmentLow
  repeat' split
  all_goals simp

theorem updateSegmentHigh_bound (s : SegCore) (c : Candle) :
    ∃ sh, (updateSegmentHigh s c).segmentHigh = some sh ∧ c.high ≤ sh ∧
      ∀ v, s.segmentHigh = some v → v ≤ sh := by
  unfold updateSegmentHigh
  rcases hsh : s.segmentHigh with _ | sh0
  · exact ⟨c.high, rfl, le_refl _, fun v hv => by cases hv⟩
  · dsimp only
    split
    · rename_i hlt
      exact ⟨c.high, rfl, le_refl _, fun v hv => by cases hv; exact le_of_lt hlt⟩
    · rename_i hge
      exact ⟨sh0, by simp [hsh], not_lt.mp hge, fun v hv => by cases hv; exact le_refl _⟩

theorem updateSegmentLow_bound (s : SegCore) (c : Candle) :
    ∃ sl, (updateSegmentLow s c).segmentLow = some sl ∧ sl ≤ c.low ∧
      ∀ v, s.segmentLow = some v → sl ≤ v := by
  unfold updateSegmentLow
  rcases hsl : s.segmentLow with _ | sl0
  · exact ⟨c.low, rfl, le_refl _, fun v hv => by cases hv⟩
  · dsimp only
    split
    · rename_i hlt
      exact ⟨c.low, rfl, le_refl _, fun v hv => by cases hv; exact le_of_lt hlt⟩
    · rename_i hge
      exact ⟨sl0, by simp [hsl], not_lt.mp hge, fun v hv => by cases hv; exact le_refl _⟩

theorem kws_usl {s : SegCore} {c : Candle} (h : keyWithinSegment s) :
    keyWithinSegment (updateSegmentHighLow s c) ∧ coversCandle (updateSegmentHighLow s c) c := by
  obtain ⟨hkh, hkl, hlh, hll, hsl⟩ := updateSegmentHigh_fields s c
  obtain ⟨hkh2, hkl2, hlh2, hll2, hsh2⟩ := updateSegmentLow_fields (updateSegmentHigh s c) c
  obtain ⟨sh, hsh', hch, hmono⟩ := updateSegmentHigh_bound s c
  obtain ⟨sl, hsl', hcl, hmono2⟩ := updateSegmentLow_bound (updateSegmentHigh s c) c
  unfold updateSegmentHighLow
  have hhiEq : (updateSegmentLow (updateSegmentHigh s c) c).segmentHigh = some sh := by
    rw [hsh2, hsh']
  refine ⟨⟨?_, ?_, ?_, ?_⟩, ⟨sh, hhiEq, hch⟩, ⟨sl, hsl', hcl⟩⟩
  · intro v hv
    rw [hkh2, hkh] at hv
    obtain ⟨w, hw, hvw⟩ := h.1 v hv
    exact ⟨sh, hhiEq, le_trans hvw (hmono w hw)⟩
  · intro v hv
    rw [hlh2, hlh] at hv
    obtain ⟨w, hw, hvw⟩ := h.2.1 v hv
    exact ⟨sh, hhiEq, le_trans hvw (hmono w hw)⟩
  · intro v hv
    rw [hkl2, hkl] at hv
    obtain ⟨w, hw, hvw⟩ := h.2.2.1 v hv
    exact ⟨sl, hsl', le_trans (hmono2 w (by rw [hsl, hw])) hvw⟩
  · intro v hv
    rw [hll2, hll] at hv
    obtain ⟨w, hw, hvw⟩ := h.2.2.2 v hv
    exact ⟨sl, hsl', le_trans (hmono2 w (by rw [hsl, hw])) hvw⟩

theorem addCandle_inv {s0 : SegCore} {c : Candle} (h : keyWithinSegment s0) :
    keyWithinSegment (addCandle s0 c) := by
  unfold addCandle
  dsimp only
  obtain ⟨h2, hc2⟩ :=
    kws_usl (s := { s0 with candles := s0.candles ++ [c.timestamp] }) (c := c) h
  split
  · exact setLastHighLow_inv
      ⟨leOpt_of_cover hc2.1, h2.2.1, geOpt_of_cover hc2.2, h2.2.2.2⟩
      (cover_transport hc2 rfl rfl)
  · obtain ⟨hA, hAh, hAl⟩ := upPullBack_inv (c := c) h2
    obtain ⟨hB, hBh, hBl⟩ := upChocPullBack_inv hA (cover_transport hc2 hAh hAl)
    obtain ⟨hC, hCh, hCl⟩ :=
      upBosOrChoc_inv hB (cover_transport (cover_transport hc2 hAh hAl) hBh hBl)
    exact setLastHighLow_inv hC
      (cover_transport (cover_transport (cover_transport hc2 hAh hAl) hBh hBl) hCh hCl)
  · obtain ⟨hA, hAh, hAl⟩ := downPullBack_inv (c := c) h2
    obtain ⟨hB, hBh, hBl⟩ := downChocPullBack_inv hA (cover_transport hc2 hAh hAl)
    obtain ⟨hC, hCh, hCl⟩ :=
      downBosOrChoc_inv hB (cover_transport (cover_transport hc2 hAh hAl) hBh hBl)
    exact setLastHighLow_inv hC
      (cover_transport (cover_transport (cover_transport hc2 hAh hAl) hBh hBl) hCh hCl)

theorem foldl_addCandle_inv {s : SegCore} (h : keyWithinSegment s) (cs : List Candle) :
    keyWithinSegment (cs.foldl addCandle s) := by
  induction cs generalizing s with
  | nil => exact h
  | cons c rest ih => exact ih (addCandle_inv h)

theorem fresh_inv (tf : String) : keyWithinSegment (SegCore.fresh tf) := by
  refine ⟨?_, ?_, ?_, ?_⟩ <;> intro v hv <;> simp [SegCore.fresh, SegCore.mk0] at hv

theorem candlesFold_inv (tf : String) (cs : List Candle) :
    keyWithinSegment (candlesFold tf cs) :=
  foldl_addCandle_inv (fresh_inv tf) cs

/-- C5 amended: for a segment started fresh (no inherited levels), after
any candle stream, whenever key_low is set, segment_low is set and lies
below it, and whenever key_high is set, segment_high is set and lies above
it.  The full P1 chain fails on the code (see the counterexample): no
comparable bound ties key_low to key_high. -/
theorem C5_first_segment_key_bounds (tf : String) (cs : List Candle) (v : Rat) :
    ((candlesFold tf cs).keyLow = some v →
      ∃ w, (candlesFold tf cs).segmentLow = some w ∧ w ≤ v) ∧
    ((candlesFold tf cs).keyHigh = some v →
      ∃ w, (candlesFold tf cs).segmentHigh = some w ∧ v ≤ w) :=
  ⟨fun h => (candlesFold_inv tf cs).2.2.1 v h,
   fun h => (candlesFold_inv tf cs).1 v h⟩

/-- C5 witness: the one-candle stream instantiating both bounds. -/
theorem C5_first_segment_key_bounds_witness :
    (∃ w, (candlesFold "T" [cW]).segmentLow = some w ∧ w ≤ 0) ∧
    (∃ w, (candlesFold "T" [cW]).segmentHigh = some w ∧ 2 ≤ w) :=
  ⟨(C5_first_segment_key_bounds "T" [cW] 0).1 (by decide),
   (C5_first_segment_key_bounds "T" [cW] 2).2 (by decide)⟩

theorem updateSegmentHigh_flags (s : SegCore) (c : Candle) :
    (updateSegmentHigh s c).dir = s.dir ∧ (updateSegmentHigh s c).bosNum = s.bosNum ∧
    (updateSegmentHigh s c).inBos = s.inBos ∧
    (updateSegmentHigh s c).inPullBack = s.inPullBack ∧
    (updateSegmentHigh s c).inChocPullBack = s.inChocPullBack ∧
    (updateSegmentHigh s c).choc = s.choc := by
  unfold updateSegmentHigh
  repeat' split
  all_goals simp

theorem updateSegmentLow_flags (s : SegCore) (c : Candle) :
    (updateSegmentLow s c).dir = s.dir ∧ (updateSegmentLow s c).bosNum = s.bosNum ∧
    (updateSegmentLow s c).inBos = s.inBos ∧
    (updateSegmentLow s c).inPullBack = s.inPullBack ∧
    (updateSegmentLow s c).inChocPullBack = s.inChocPullBack ∧
    (updateSegmentLow s c).choc = s.choc := by
  unfold updateSegmentLow
  repeat' split
  all_goals simp

theorem upPullBack_skip {s : SegCore} (c : Candle) (h : s.inPullBack = true) :
    upPullBack s c = s := by
  unfold upPullBack
  rw [if_neg]
  simp [h]

theorem downPullBack_skip {s : SegCore} (c : Candle) (h : s.inPullBack = true) :
    downPullBack s c = s := by
  unfold downPullBack
  rw [if_neg]
  simp [h]

theorem upChocPullBack_flags (s : SegCore) (c : Candle) :
    (upChocPullBack s c).bosNum = s.bosNum ∧ (upChocPullBack s c).inBos = s.inBos ∧
    (upChocPullBack s c).keyHigh = s.keyHigh ∧
    (upChocPullBack s c).inPullBack = s.inPullBack := by
  unfold upChocPullBack
  split
  all_goals simp

theorem downChocPullBack_flags (s : SegCore) (c : Candle) :
    (downChocPullBack s c).bosNum = s.bosNum ∧ (downChocPullBack s c).inBos = s.inBos ∧
    (downChocPullBack s c).keyLow = s.keyLow ∧
    (downChocPullBack s c).inPullBack = s.inPullBack := by
  unfold downChocPullBack
  split
  all_goals simp

theorem upBosOrChoc_noBos {s : SegCore} {c : Candle}
    (h : oLt s.keyHigh c.close = false) :
    (upBosOrChoc s c).bosNum = s.bosNum ∧ (upBosOrChoc s c).inBos = s.inBos := by
  unfold upBosOrChoc
  rw [if_neg (by simp [h])]
  split
  · split
    · simp
    · split
      · simp
      · simp
  · simp

theorem downBosOrChoc_noBos {s : SegCore} {c : Candle}
    (h : oGt s.keyLow c.close = false) :
    (downBosOrChoc s c).bosNum = s.bosNum ∧ (downBosOrChoc s c).inBos = s.inBos := by
  unfold downBosOrChoc
  rw [if_neg (by simp [h])]
  split
  · split
    · simp
    · split
      · simp
      · simp
  · simp

theorem setLastHigh_flags (s : SegCore) (c : Candle) :
    (setLastHigh s c).bosNum = s.bosNum ∧ (setLastHigh s c).inBos = s.inBos := by
  unfold setLastHigh
  repeat' split
  all_goals simp

theorem setLastLow_flags (s : SegCore) (c : Candle) :
    (setLastLow s c).bosNum = s.bosNum ∧ (setLastLow s c).inBos = s.inBos := by
  unfold setLastLow
  repeat' split
  all_goals simp

theorem oLt_self_close (x : Rat) : oLt (some x) x = false := by
  simp [oLt]

theorem oGt_self_close (x : Rat) : oGt (some x) x = false := by
  simp [oGt]

/-- C7: a candle whose close equals the key high of an UP segment in the
pulled-back state (or, mirrored, the key low of a DOWN segment) does not
trigger a BOS: bos_num is unchanged and in_bos stays false; the source
tests candle.close > key_high (resp. <) strictly. -/
theorem C7_bos_strict (s : SegCore) (c : Candle)
    (hpb : s.inPullBack = true) (hbos : s.inBos = false)
    (hkey : (s.dir = Direction.UP ∧ s.keyHigh = some c.close)
        ∨ (s.dir = Direction.DOWN ∧ s.keyLow = some c.close)) :
    (addCandle s c).bosNum = s.bosNum ∧ (addCandle s c).inBos = false := by
  unfold addCandle
  dsimp only
  have hT := updateSegmentHigh_flags { s with candles := s.candles ++ [c.timestamp] } c
  have hT2 := updateSegmentLow_flags
    (updateSegmentHigh { s with candles := s.candles ++ [c.timestamp] } c) c
  have hF := updateSegmentHigh_fields { s with candles := s.candles ++ [c.timestamp] } c
  have hF2 := updateSegmentLow_fields
    (updateSegmentHigh { s with candles := s.candles ++ [c.timestamp] } c) c
  set t := updateSegmentHighLow { s with candles := s.candles ++ [c.timestamp] } c with ht
  have tdir : t.dir = s.dir := by rw [ht]; unfold updateSegmentHighLow; rw [hT2.1, hT.1]
  have tpb : t.inPullBack = true := by
    rw [ht]; unfold updateSegmentHighLow; rw [hT2.2.2.2.1, hT.2.2.2.1]; exact hpb
  have tbos : t.inBos = false := by
    rw [ht]; unfold updateSegmentHighLow; rw [hT2.2.2.1, hT.2.2.1]; exact hbos
  have tnum : t.bosNum = s.bosNum := by
    rw [ht]; unfold updateSegmentHighLow; rw [hT2.2.1, hT.2.1]
  have tkh : t.keyHigh = s.keyHigh := by
    rw [ht]; unfold updateSegmentHighLow; rw [hF2.1, hF.1]
  have tkl : t.keyLow = s.keyLow := by
    rw [ht]; unfold updateSegmentHighLow; rw [hF2.2.1, hF.2.1]
  rcases hkey with ⟨hdir, hkh⟩ | ⟨hdir, hkl⟩
  · split
    · rename_i hd
      rw [tdir, hdir] at hd
      cases hd
    · -- UP branch
      rw [upPullBack_skip c tpb]
      have hcp := upChocPullBack_flags t c
      have hnb := upBosOrChoc_noBos (s := upChocPullBack t c) (c := c)
        (by rw [hcp.2.2.1, tkh, hkh]; exact oLt_self_close c.close)
      have hsl1 := setLastHigh_flags (upBosOrChoc (upChocPullBack t c) c) c
      have hsl2 := setLastLow_flags (setLastHigh (upBosOrChoc (upChocPullBack t c) c) c) c
      unfold setLastHighLow
      constructor
      · rw [hsl2.1, hsl1.1, hnb.1, hcp.1, tnum]
      · rw [hsl2.2, hsl1.2, hnb.2, hcp.2.1, tbos]
    · rename_i hd
      rw [tdir, hdir] at hd
      cases hd
  · split
    · rename_i hd
      rw [tdir, hdir] at hd
      cases hd
    · rename_i hd
      rw [tdir, hdir] at hd
      cases hd
    · -- DOWN branch
      rw [downPullBack_skip c tpb]
      have hcp := downChocPullBack_flags t c
      have hnb := downBosOrChoc_noBos (s := downChocPullBack t c) (c := c)
        (by rw [hcp.2.2.1, tkl, hkl]; exact oGt_self_close c.close)
      have hsl1 := setLastHigh_flags (downBosOrChoc (downChocPullBack t c) c) c
      have hsl2 := setLastLow_flags (setLastHigh (downBosOrChoc (downChocPullBack t c) c) c) c
      unfold setLastHighLow
      constructor
      · rw [hsl2.1, hsl1.1, hnb.1, hcp.1, tnum]
      · rw [hsl2.2, hsl1.2, hnb.2, hcp.2.1, tbos]

/-- C7 witness: UP segment with key high 10 and a bullish candle closing
exactly at 10. -/
theorem C7_bos_strict_witness :
    (addCandle sC7 cC7).bosNum = sC7.bosNum ∧ (addCandle sC7 cC7).inBos = false :=
  C7_bos_strict sC7 cC7 (by decide) (by decide) (Or.inl ⟨by decide, by decide⟩)


/-- C2: on the code, the MOVE_SL latch is set by the first in-BOS signal
and never reset: after low.in_bos has been observed false and a later
in-BOS candle arrives, modify_positions still emits no MOVE_SL, because
the reset path calls bos_reset (the entry latch) and mods_bos_reset is
never called.  The claim expects a MOVE_SL on the third step below. -/
theorem C2_moveSl_latch_never_resets :
    (modifyPositions optsStd AdvisorState.init 1 (sigsInBos true)).2 =
        [Action.moveSl PosType.SELL "EURUSD" (some 10)] ∧
    (modifyPositions optsStd
        (modifyPositions optsStd AdvisorState.init 1 (sigsInBos true)).1 1
        (sigsInBos false)).2 = [] ∧
    (modifyPositions optsStd
        (modifyPositions optsStd
          (modifyPositions optsStd AdvisorState.init 1 (sigsInBos true)).1 1
          (sigsInBos false)).1 1
        (sigsInBos true)).2 = [] := by
  refine ⟨by decide, by decide, by decide⟩

/-- C3: for every OPEN position (long or short) whose SL and TP are both
reached by the candle range (for a long, low ≤ sl and high ≥ tp; for a
short, high ≥ sl and low ≤ tp), check_position_and_update closes at the SL
price (SL is checked first), with profit in pips equal to sl - entry for a
long and entry - sl for a short.  The concrete long case entry=100, sl=99,
tp=101 on (low, high) = (98.5, 101.5) closes at 99 with profit -1 (see the
witness, which also exercises the mirrored short case). -/
theorem C3_sl_precedence (p : PositionCore) (time : Nat) (lowP highP s t : Rat)
    (hst : p.state = PosState.OPEN)
    (hsl : p.sl = some s) (htp : p.tp = some t)
    (hbuy : p.ptype = PosType.BUY → lowP ≤ s ∧ highP ≥ t)
    (hsell : p.ptype = PosType.SELL → highP ≥ s ∧ lowP ≤ t) :
    (checkPositionAndUpdate p time lowP highP).1.state = PosState.CLOSED ∧
    (checkPositionAndUpdate p time lowP highP).1.closePrice = some s ∧
    (checkPositionAndUpdate p time lowP highP).1.profit =
      (if p.ptype = PosType.SELL then p.price - s else s - p.price) := by
  cases hty : p.ptype with
  | BUY =>
      obtain ⟨h1, h2⟩ := hbuy hty
      unfold checkPositionAndUpdate closePosition
      simp [hst, hty, hsl, htp, h1]
  | SELL =>
      obtain ⟨h1, h2⟩ := hsell hty
      unfold checkPositionAndUpdate closePosition
      simp [hst, hty, hsl, htp, h1]

/-- C3 witness: the concrete SL-pessimism scenario of the spec (a long at
entry 100 with sl 99 and tp 101 on candle range (98.5, 101.5) closes at 99
with profit -1), together with the mirrored short (entry 100, sl 101,
tp 99, same candle) closing at 101 with profit -1. -/
theorem C3_sl_precedence_witness :
    (((checkPositionAndUpdate (PositionCore.mk0 PosType.BUY "EURUSD" 1 1 1 100
        (some 99) (some 101)) 2 (197 / 2) (203 / 2)).1.state = PosState.CLOSED ∧
     (checkPositionAndUpdate (PositionCore.mk0 PosType.BUY "EURUSD" 1 1 1 100
        (some 99) (some 101)) 2 (197 / 2) (203 / 2)).1.closePrice = some 99 ∧
     (checkPositionAndUpdate (PositionCore.mk0 PosType.BUY "EURUSD" 1 1 1 100
        (some 99) (some 101)) 2 (197 / 2) (203 / 2)).1.profit = 99 - 100) ∧
    (99 : Rat) - 100 = -1) ∧
    ((checkPositionAndUpdate (PositionCore.mk0 PosType.SELL "EURUSD" 1 1 1 100
        (some 101) (some 99)) 2 (197 / 2) (203 / 2)).1.state = PosState.CLOSED ∧
     (checkPositionAndUpdate (PositionCore.mk0 PosType.SELL "EURUSD" 1 1 1 100
        (some 101) (some 99)) 2 (197 / 2) (203 / 2)).1.closePrice = some 101 ∧
     (checkPositionAndUpdate (PositionCore.mk0 PosType.SELL "EURUSD" 1 1 1 100
        (some 101) (some 99)) 2 (197 / 2) (203 / 2)).1.profit = 100 - 101) ∧
    (100 : Rat) - 101 = -1 := by
  refine ⟨⟨?_, by norm_num⟩, ?_, by norm_num⟩
  · exact C3_sl_precedence _ 2 (197 / 2) (203 / 2) 99 101 (by decide) (by decide)
      (by decide) (fun _ => ⟨by norm_num, by norm_num⟩) (fun h => by cases h)
  · exact C3_sl_precedence _ 2 (197 / 2) (203 / 2) 101 99 (by decide) (by decide)
      (by decide) (fun h => by cases h) (fun _ => ⟨by norm_num, by norm_num⟩)

/-- C4: merge_zones merges exactly under the condition
(rhi < ahi ∧ rhi > alo) ∨ (rhi > ahi ∧ rlo < ahi) on the mode-chosen raw
interval; this is not the same as non-empty intersection (see the
counterexample). -/
theorem C4_merge_condition (mode : Option ZoningMode) (aggr : ASRZoneCore) (raw : RSRZone) :
    (mergeZones mode aggr raw).isSome = true ↔
      (((rawInterval mode raw).2 < aggr.interval.2
          ∧ (rawInterval mode raw).2 > aggr.interval.1)
        ∨ ((rawInterval mode raw).2 > aggr.interval.2
          ∧ (rawInterval mode raw).1 < aggr.interval.2)) := by
  unfold mergeZones
  dsimp only
  by_cases h1 : (rawInterval mode raw).2 < aggr.interval.2
      ∧ (rawInterval mode raw).2 > aggr.interval.1
  · rw [if_pos h1]
    exact iff_of_true (by simp) (Or.inl h1)
  · rw [if_neg h1]
    by_cases h2 : (rawInterval mode raw).2 > aggr.interval.2
        ∧ (rawInterval mode raw).1 < aggr.interval.2
    · rw [if_pos h2]
      exact iff_of_true (by simp) (Or.inr h2)
    · rw [if_neg h2]
      exact iff_of_false (by simp) (by tauto)

/-- C4 counterexample: the raw interval [1, 3] and the aggregate [2, 3]
intersect (their intersection is [2, 3]), yet merge_zones does not merge
them, because rhi = ahi satisfies neither disjunct. -/
theorem C4_intersection_counterexample :
    mergeZones (some ZoningMode.CANDLE) aggrC4 rawC4 = none ∧
    intervalsIntersect (rawInterval (some ZoningMode.CANDLE) rawC4) aggrC4.interval := by
  refine ⟨by with_unfolding_all decide, ?_⟩
  show max (1 : Rat) 2 ≤ min 3 3
  rw [min_self, max_eq_right] <;> norm_num

/-- C5 counterexample: P1 fails on the code.  Feeding the fresh first
segment the three candles c5a, c5b, c5c (a bullish start, a bearish
pullback gapping above the old key high, then a BOS candle whose low is
above the key high) leaves key_low = 115 > key_high = 110 with both
segment extremes set. -/
theorem C5_p1_counterexample : ¬ segP1 (candlesFold "LOW T-FRAME" [c5a, c5b, c5c]) := by
  intro h
  have h2 := h 100 115 110 131 (by decide) (by decide) (by decide) (by decide)
  exact absurd h2.2.1 (by norm_num)

/-- C6: the volume formula, rejection below volume_min and clamping to
volume_max hold as claimed, but the remaining branch rounds with Python
round() to volume_min's decimal places (half-to-even, possibly up), not
down to a multiple of volume_min. -/
theorem C6_volume_sizing (opts : Options) (ptype : PosType) (cp sl : Rat)
    (tp : Option Rat) (balance : Rat) :
    ((balance * opts.riskPerTrade) / (pyAbs (cp - sl) * opts.symbol.tradeContractSize)
        < opts.symbol.volumeMin →
      buildPosition opts ptype cp sl tp balance = none) ∧
    (opts.symbol.volumeMin ≤
        (balance * opts.riskPerTrade) / (pyAbs (cp - sl) * opts.symbol.tradeContractSize) →
      (balance * opts.riskPerTrade) / (pyAbs (cp - sl) * opts.symbol.tradeContractSize)
          > opts.symbol.volumeMax →
      ∃ t, buildPosition opts ptype cp sl tp balance = some t
        ∧ t.vol = opts.symbol.volumeMax) ∧
    (opts.symbol.volumeMin ≤
        (balance * opts.riskPerTrade) / (pyAbs (cp - sl) * opts.symbol.tradeContractSize) →
      (balance * opts.riskPerTrade) / (pyAbs (cp - sl) * opts.symbol.tradeContractSize)
          ≤ opts.symbol.volumeMax →
      ∃ t, buildPosition opts ptype cp sl tp balance = some t
        ∧ t.vol = roundToRef
            ((balance * opts.riskPerTrade) / (pyAbs (cp - sl) * opts.symbol.tradeContractSize))
            opts.symbol.volumeMin) := by
  unfold buildPosition
  dsimp only
  refine ⟨fun h => by rw [if_pos h], fun h1 h2 => ?_, fun h1 h2 => ?_⟩
  · rw [if_neg (not_lt.mpr h1), if_pos h2]
    exact ⟨_, rfl, rfl⟩
  · rw [if_neg (not_lt.mpr h1), if_neg (not_lt.mpr h2)]
    exact ⟨_, rfl, rfl⟩

/-- C6 witness: concrete run of each branch hypothesis at volume 0.018
with volume_min = 0.01, volume_max = 100. -/
theorem C6_volume_sizing_witness :
    (∃ t, buildPosition optsStd PosType.BUY 110 100 none 18 = some t
      ∧ t.vol = roundToRef ((18 * (1 / 100)) / (pyAbs ((110 : Rat) - 100) * 1)) (1 / 100)) :=
  (C6_volume_sizing optsStd PosType.BUY 110 100 none 18).2.2
    (by with_unfolding_all decide) (by with_unfolding_all decide)

/-- C6 counterexample: volume 0.018 is rounded by the code to 0.02
(round-half-even at two decimal places rounds 1.8 up to 2), while the
claim's round-down-to-a-multiple-of-volume_min yields 0.01. -/
theorem C6_round_down_counterexample :
    buildPosition optsStd PosType.BUY 110 100 none 18 =
      some { ttype := PosType.BUY, instr := "EURUSD", vol := 1 / 50, price := 110,
             sl := 100, tp := none } ∧
    specRoundDown ((18 * (1 / 100)) / (pyAbs ((110 : Rat) - 100) * 1)) (1 / 100) = 1 / 100 ∧
    (1 : Rat) / 50 ≠ 1 / 100 := by
  refine ⟨by with_unfolding_all decide, by with_unfolding_all decide,
    by with_unfolding_all decide⟩

/-- C8: on the code, the DOWN-segment BOS pullback (in_bos, not pulled
back, bullish candle) sets in_pull_back, clears in_bos and moves key_low
to the last low, but appends the last HIGH candle to key_HIGH_candles
instead of recording the last-low candle into key_low_candles (kraken.py
line 447), unlike every other branch and unlike the UP mirror. -/
theorem C8_down_pullback_records_key_high_candle :
    (addCandle segC8 c8).inPullBack = true ∧
    (addCandle segC8 c8).inBos = false ∧
    (addCandle segC8 c8).keyLow = some 90 ∧
    (addCandle segC8 c8).keyLowCandle = some 5 ∧
    (addCandle segC8 c8).keyLowCandles = [some 4] ∧
    (addCandle segC8 c8).keyHighCandles = [some 3, some 6] ∧
    (addCandle segC8 c8).bosNum = segC8.bosNum := by
  refine ⟨by decide, by decide, by decide, by decide, by decide, by decide, by decide⟩

/-- C9 amended: an order whose SL is on the wrong side of the entry makes
the position constructor raise a ValueError which run_backtest does not
catch: the placement step returns an error (the run aborts) instead of
rejecting the order and continuing. -/
theorem C9_wrong_side_sl_aborts (ids : IdStream) (n : Nat) (opts : Options)
    (acc : Account) (t : Trade) (time : Nat)
    (hcap : countOpenPositions acc < opts.maxConcurrentTrades)
    (h : (t.ttype = PosType.BUY ∧ t.price ≤ t.sl)
        ∨ (t.ttype = PosType.SELL ∧ t.sl ≤ t.price)) :
    ∃ msg, placeTrade ids n opts acc (some t) time = Except.error msg := by
  unfold placeTrade
  dsimp only
  rw [if_pos hcap]
  rcases h with ⟨hty, hsl⟩ | ⟨hty, hsl⟩
  · refine ⟨"Stop loss on a Long position must be below entry price.", ?_⟩
    rw [hty]
    rw [if_neg (by decide)]
    unfold longPositionNew
    rw [if_pos (by simp [oGe, ge_iff_le, hsl])]
    rfl
  · refine ⟨"Stop loss on a Short position must be above entry price.", ?_⟩
    rw [hty]
    rw [if_pos rfl]
    unfold shortPositionNew
    rw [if_pos (by simp [oLe, hsl])]
    rfl

/-- C9 witness: concrete invalid long order aborting the placement. -/
theorem C9_wrong_side_sl_aborts_witness :
    ∃ msg, placeTrade zid 0 optsStd (accountNew "acct" 1000) (some tradeC9) 7 =
      Except.error msg :=
  C9_wrong_side_sl_aborts zid 0 optsStd (accountNew "acct" 1000) tradeC9 7
    (by with_unfolding_all decide)
    (Or.inl ⟨by with_unfolding_all decide, by with_unfolding_all decide⟩)

/-- C9 counterexample: the claim as stated (rejection is local and the
simulation continues) fails: the concrete placement returns an error,
i.e. the uncaught ValueError aborts the run. -/
theorem C9_continue_counterexample :
    placeTrade zid 0 optsStd (accountNew "acct" 1000) (some tradeC9) 7 =
      Except.error "Stop loss on a Long position must be below entry price." := by
  with_unfolding_all decide

/-- C10: with fewer than two segments on a level, get_signal_data fills
the prev_segment block from the current (only) segment: published seg_id,
seg_dir and segment_range coincide with the current segment's. -/
theorem C10_prev_segment_self (pstData : List Candle) (s : PrimarySegment)
    (r : SignalLevel) (h : getSignalLevel pstData [s] = Except.ok r) :
    r.prevSegment.segId = r.segId ∧ r.prevSegment.segDir = r.segDir ∧
    r.prevSegment.segmentRange = r.segmentRange := by
  unfold getSignalLevel at h
  split at h
  · cases h
  · rename_i ps hps
    rw [show ([s].getLast?) = some s from rfl] at hps
    cases hps
    rcases hlast : s.core.candles.getLast? with _ | lastTs
    · rw [hlast] at h
      cases h
    · rw [hlast] at h
      dsimp only at h
      rcases hd : getCandleDir pstData lastTs with e | d
      · rw [hd] at h
        simp only [Bind.bind, Except.bind] at h
        cases h
      · rw [hd] at h
        simp only [Bind.bind, Except.bind] at h
        cases h
        exact ⟨rfl, rfl, rfl⟩

/-- C10 witness: one fresh segment fed one candle reports itself as its
own previous segment. -/
theorem C10_prev_segment_self_witness :
    rW.prevSegment.segId = rW.segId ∧ rW.prevSegment.segDir = rW.segDir ∧
    rW.prevSegment.segmentRange = rW.segmentRange :=
  C10_prev_segment_self pdW sW rW (by with_unfolding_all decide)

theorem stripSeg_core (s : PrimarySegment) : (stripSeg s).core = s.core := rfl

theorem updateLast_map (segs : List PrimarySegment) (c : Candle) :
    (updateLast segs c).map stripSeg = updateLast (segs.map stripSeg) c := by
  induction segs with
  | nil => rfl
  | cons s rest ih =>
      cases rest with
      | nil => rfl
      | cons t ts =>
          show stripSeg s :: (updateLast (t :: ts) c).map stripSeg
              = stripSeg s :: updateLast ((t :: ts).map stripSeg) c
          rw [ih]

theorem processCandleSegs_map (seed : SegCore → SegCore) (ids : IdStream) (n : Nat)
    (segs : List PrimarySegment) (c : Candle) :
    processCandleSegs seed zid n (segs.map stripSeg) c =
      ((processCandleSegs seed ids n segs c).1.map stripSeg,
        (processCandleSegs seed ids n segs c).2) := by
  unfold processCandleSegs
  rw [List.getLast?_map]
  cases hlast : segs.getLast? with
  | none => rfl
  | some lastSeg =>
      dsimp only [Option.map]
      simp only [stripSeg_core]
      by_cases hcc : lastSeg.core.chocConfirmed = true
      · rw [if_pos hcc, if_pos hcc]
        simp only [Prod.mk.injEq]
        refine ⟨?_, trivial⟩
        rw [show (List.map stripSeg segs ++
              [({ segId := zid n, core := seed lastSeg.core } : PrimarySegment)])
            = (segs ++ [({ segId := ids n, core := seed lastSeg.core } : PrimarySegment)]).map
                stripSeg by rw [List.map_append]; rfl]
        exact (updateLast_map _ c).symm
      · rw [if_neg hcc, if_neg hcc]
        simp only [Prod.mk.injEq]
        exact ⟨(updateLast_map _ c).symm, trivial⟩

theorem foldSegs_map (seed : SegCore → SegCore) (ids : IdStream)
    (cs : List Candle) (segs : List PrimarySegment) (n : Nat) :
    cs.foldl (fun (acc : List PrimarySegment × Nat) c =>
        processCandleSegs seed zid acc.2 acc.1 c) (segs.map stripSeg, n) =
      ((cs.foldl (fun (acc : List PrimarySegment × Nat) c =>
          processCandleSegs seed ids acc.2 acc.1 c) (segs, n)).1.map stripSeg,
       (cs.foldl (fun (acc : List PrimarySegment × Nat) c =>
          processCandleSegs seed ids acc.2 acc.1 c) (segs, n)).2) := by
  induction cs generalizing segs n with
  | nil => rfl
  | cons c rest ih =>
      simp only [List.foldl_cons]
      rw [processCandleSegs_map seed ids]
      exact ih _ _

theorem stripZone_core (z : ASRZone) : (stripZone z).core = z.core := rfl

theorem segToZone_strip (data : List Candle) (s : PrimarySegment) :
    segToZone data (stripSeg s).core = segToZone data s.core := rfl

theorem compileZonesLevel_map (data : List Candle) (segs : List PrimarySegment) :
    compileZonesLevel data (segs.map stripSeg) = compileZonesLevel data segs := by
  induction segs with
  | nil => rfl
  | cons s rest ih =>
      simp only [List.map_cons, compileZonesLevel]
      rw [segToZone_strip, ih]

theorem compileZones_map (dataLow dataHigh : List Candle)
    (segsLow segsHigh : List PrimarySegment) :
    compileZones dataLow dataHigh (segsLow.map stripSeg) (segsHigh.map stripSeg) =
      compileZones dataLow dataHigh segsLow segsHigh := by
  unfold compileZones
  rw [← List.map_drop, ← List.map_drop, compileZonesLevel_map, compileZonesLevel_map]

theorem addToAggregateZone_map (mode : Option ZoningMode) (zones : List ASRZone)
    (raw : RSRZone) :
    addToAggregateZone mode (zones.map stripZone) raw =
      (addToAggregateZone mode zones raw).map (List.map stripZone) := by
  induction zones with
  | nil => rfl
  | cons z rest ih =>
      simp only [List.map_cons, addToAggregateZone, stripZone_core]
      cases mergeZones mode z.core raw with
      | none =>
          simp only [ih, Option.map_map]
          rfl
      | some c2 => rfl

theorem processZonesAux_map (mode : Option ZoningMode) (ids : IdStream)
    (rs : List RSRZone) (acc : List ASRZone) (n : Nat) :
    processZonesAux mode zid rs (acc.map stripZone) n =
      ((processZonesAux mode ids rs acc n).1.map stripZone,
        (processZonesAux mode ids rs acc n).2) := by
  induction rs generalizing acc n with
  | nil => rfl
  | cons r rest ih =>
      simp only [processZonesAux]
      rw [addToAggregateZone_map]
      cases haz : addToAggregateZone mode acc r with
      | some acc2 =>
          simp only [Option.map_some]
          exact ih acc2 n
      | none =>
          simp only [Option.map_none]
          have h2 := ih (acc ++ [⟨ids n, ⟨r.ztype, r.x, rawInterval mode r, 0⟩⟩]) (n + 1)
          rw [List.map_append] at h2
          simp only [List.map_cons, List.map_nil] at h2
          exact h2

theorem processZones_map (mode : Option ZoningMode) (ids : IdStream) (n : Nat)
    (raw : List RSRZone) (aggr : List ASRZone) :
    processZones mode zid n raw (aggr.map stripZone) =
      ((processZones mode ids n raw aggr).1.map stripZone,
        (processZones mode ids n raw aggr).2) := by
  unfold processZones
  split
  · rfl
  · exact processZonesAux_map mode ids raw [] n

theorem getZones_map (zones : List ASRZone) :
    getZones (zones.map stripZone) = (getZones zones).map stripZoneRecord := by
  induction zones with
  | nil => rfl
  | cons z rest ih =>
      simp only [List.map_cons, getZones] at ih ⊢
      rw [ih]
      rfl

theorem stripSigLevel_eq (l : SignalLevel) :
    stripSigLevel l =
      { segId := "", segDir := l.segDir, candle := l.candle, candleDir := l.candleDir,
        bosNum := l.bosNum, inBos := l.inBos, inPullBack := l.inPullBack,
        highs := l.highs, lows := l.lows, choc := l.choc,
        chocConfirmed := l.chocConfirmed, keyLevels := l.keyLevels,
        segmentRange := l.segmentRange,
        prevSegment := { segId := "", segDir := l.prevSegment.segDir,
                         segmentRange := l.prevSegment.segmentRange } } := rfl

theorem getSignalLevel_strip (pstData : List Candle) (segs : List PrimarySegment) :
    getSignalLevel pstData (segs.map stripSeg) =
      Except.map stripSigLevel (getSignalLevel pstData segs) := by
  unfold getSignalLevel
  rw [List.getLast?_map]
  cases hl : segs.getLast? with
  | none => rfl
  | some ps =>
      dsimp only [Option.map]
      rw [List.length_map, ← List.map_dropLast, List.getLast?_map, stripSeg_core]
      have hprev :
          (if segs.length < 2 then stripSeg ps
           else ((segs.dropLast.getLast?).map stripSeg).getD (stripSeg ps))
            = stripSeg (if segs.length < 2 then ps else (segs.dropLast.getLast?).getD ps) := by
        by_cases h2 : segs.length < 2
        · rw [if_pos h2, if_pos h2]
        · rw [if_neg h2, if_neg h2]
          cases segs.dropLast.getLast? <;> rfl
      rw [hprev]
      cases hc : ps.core.candles.getLast? with
      | none => rfl
      | some lastTs =>
          simp only [Bind.bind, Except.bind]
          cases getCandleDir pstData lastTs with
          | error e => rfl
          | ok cdir => rfl

theorem stripKraken_eq (k : KrakenState) :
    stripKraken k =
      { segsLow := k.segsLow.map stripSeg, segsMid := k.segsMid.map stripSeg,
        segsHigh := k.segsHigh.map stripSeg, pstLow := k.pstLow, pstMid := k.pstMid,
        pstHigh := k.pstHigh, sr := k.sr.map stripSR } := rfl

theorem getSignalData_strip (k : KrakenState) :
    getSignalData (stripKraken k) = Except.map stripSignals (getSignalData k) := by
  unfold getSignalData
  rw [stripKraken_eq]
  simp only [Bind.bind, Except.bind]
  rw [getSignalLevel_strip, getSignalLevel_strip, getSignalLevel_strip]
  cases getSignalLevel k.pstLow k.segsLow with
  | error e => rfl
  | ok l =>
      cases getSignalLevel k.pstMid k.segsMid with
      | error e => rfl
      | ok m =>
          cases getSignalLevel k.pstHigh k.segsHigh with
          | error e => rfl
          | ok h =>
              simp only [Except.map, Except.ok.injEq]
              cases hsr : k.sr with
              | none => rfl
              | some sr =>
                  dsimp only [Option.map]
                  simp only [stripSignals, stripSR]
                  rw [getZones_map]
                  rfl

theorem stripSignals_low (s : Signals) : (stripSignals s).low = stripSigLevel s.low := rfl

theorem stripSignals_mid (s : Signals) : (stripSignals s).mid = stripSigLevel s.mid := rfl

theorem stripSignals_high (s : Signals) : (stripSignals s).high = stripSigLevel s.high := rfl

theorem stripSignals_srZones (s : Signals) :
    (stripSignals s).srZones = s.srZones.map (List.map stripZoneRecord) := rfl

theorem stripSigLevel_choc (l : SignalLevel) : (stripSigLevel l).choc = l.choc := rfl

theorem stripSigLevel_chocConfirmed (l : SignalLevel) :
    (stripSigLevel l).chocConfirmed = l.chocConfirmed := rfl

theorem stripSigLevel_segDir (l : SignalLevel) : (stripSigLevel l).segDir = l.segDir := rfl

theorem stripSigLevel_inBos (l : SignalLevel) : (stripSigLevel l).inBos = l.inBos := rfl

theorem stripSigLevel_keyLevels (l : SignalLevel) :
    (stripSigLevel l).keyLevels = l.keyLevels := rfl

theorem stripSigLevel_segmentRange (l : SignalLevel) :
    (stripSigLevel l).segmentRange = l.segmentRange := rfl

theorem stripZoneRecord_interval (z : ZoneRecord) :
    (stripZoneRecord z).interval = z.interval := rfl

theorem inZone_strip (zs : List ZoneRecord) (kl : Option Rat) :
    inZone (zs.map stripZoneRecord) kl =
      Except.map (Option.map stripZoneRecord) (inZone zs kl) := by
  induction zs with
  | nil => cases kl <;> rfl
  | cons z rest ih =>
      cases kl with
      | none => rfl
      | some v =>
          simp only [List.map_cons, inZone, stripZoneRecord_interval]
          by_cases h : v ≥ z.interval.1 ∧ v ≤ z.interval.2
          · rw [if_pos h, if_pos h]
            rfl
          · rw [if_neg h, if_neg h]
            exact ih

theorem aroundZone_strip (opts : Options) (zs : List ZoneRecord) (d : Direction)
    (kl : Option Rat) :
    aroundZone opts (zs.map stripZoneRecord) d kl =
      Except.map (Option.map stripZoneRecord) (aroundZone opts zs d kl) := by
  induction zs with
  | nil => cases kl <;> rfl
  | cons z rest ih =>
      cases kl with
      | none => rfl
      | some v =>
          simp only [List.map_cons, aroundZone, stripZoneRecord_interval]
          by_cases h : (v ≥ z.interval.1
                ∧ v ≤ z.interval.2 + (z.interval.2 - z.interval.1) * opts.srZoneProximityMargin
                ∧ d = Direction.UP)
              ∨ (v ≤ z.interval.2
                ∧ v ≥ z.interval.1 - (z.interval.2 - z.interval.1) * opts.srZoneProximityMargin
                ∧ d = Direction.DOWN)
          · rw [if_pos h, if_pos h]
            rfl
          · rw [if_neg h, if_neg h]
            exact ih

theorem zoneClearence_map (opts : Options) (zs : List ZoneRecord) (d : Direction)
    (z : ZoneRecord) :
    zoneClearence opts (zs.map stripZoneRecord) d z = zoneClearence opts zs d z := by
  unfold zoneClearence
  rw [List.all_map]
  rfl

theorem testChocZoneInteraction_strip (opts : Options) (zs : List ZoneRecord)
    (d : Direction) (sr : SegRange) (cp : Rat) :
    testChocZoneInteraction opts (zs.map stripZoneRecord) d sr cp =
      testChocZoneInteraction opts zs d sr cp := by
  unfold testChocZoneInteraction
  by_cases h1 : opts.srZoneInteraction = "TOUCH"
  · rw [if_pos h1, if_pos h1, inZone_strip]
    cases inZone zs (if d = Direction.UP then sr.highest else sr.lowest) with
    | error e => rfl
    | ok zo =>
        cases zo with
        | none => rfl
        | some z =>
            simp only [Except.map, Option.map, Bind.bind, Except.bind]
            rw [zoneClearence_map]
            rfl
  · rw [if_neg h1, if_neg h1]
    by_cases h2 : opts.srZoneInteraction = "PROXIMITY"
    · rw [if_pos h2, if_pos h2, aroundZone_strip]
      cases aroundZone opts zs d (if d = Direction.UP then sr.highest else sr.lowest) with
      | error e => rfl
      | ok zo =>
          cases zo with
          | none => rfl
          | some z =>
              simp only [Except.map, Option.map, Bind.bind, Except.bind]
              rw [zoneClearence_map]
              rfl
    · rw [if_neg h2, if_neg h2]
      rfl

theorem testBosZoneInteraction_strip (opts : Options) (zs : List ZoneRecord)
    (d : Direction) (kl kh : Option Rat) (cp : Rat) :
    testBosZoneInteraction opts (zs.map stripZoneRecord) d kl kh cp =
      testBosZoneInteraction opts zs d kl kh cp := by
  unfold testBosZoneInteraction
  by_cases h1 : opts.srZoneInteraction = "TOUCH"
  · rw [if_pos h1, if_pos h1, inZone_strip]
    cases inZone zs (if d = Direction.UP then kl else kh) with
    | error e => rfl
    | ok zo =>
        cases zo with
        | none => rfl
        | some z =>
            simp only [Except.map, Option.map, Bind.bind, Except.bind]
            rw [zoneClearence_map]
            rfl
  · rw [if_neg h1, if_neg h1]
    by_cases h2 : opts.srZoneInteraction = "PROXIMITY"
    · rw [if_pos h2, if_pos h2, aroundZone_strip]
      cases aroundZone opts zs (if d = Direction.DOWN then Direction.UP else Direction.DOWN)
          (if d = Direction.UP then kl else kh) with
      | error e => rfl
      | ok zo =>
          cases zo with
          | none => rfl
          | some z =>
              simp only [Except.map, Option.map, Bind.bind, Except.bind]
              rw [zoneClearence_map]
              rfl
    · rw [if_neg h2, if_neg h2]
      rfl

theorem priceActionBosBlock_strip (opts : Options) (st : AdvisorState)
    (cp bal : Rat) (sigs : Signals) :
    priceActionBosBlock opts st cp bal (stripSignals sigs) =
      priceActionBosBlock opts st cp bal sigs := by
  unfold priceActionBosBlock
  simp only [stripSignals_low, stripSignals_mid, stripSignals_high, stripSignals_srZones,
    stripSigLevel_inBos, stripSigLevel_segDir, stripSigLevel_keyLevels]
  by_cases hcond : sigs.low.inBos = true
      ∧ (opts.entry = "CHOC+BOS" ∨ opts.entry = "CHOC_CONFIRMED+BOS")
      ∧ st.bosExpired = false
  · rw [if_pos hcond, if_pos hcond]
    cases hz : sigs.srZones with
    | none => rfl
    | some zs =>
        dsimp only [Option.map, reqZones]
        simp only [Bind.bind, Except.bind]
        rw [testBosZoneInteraction_strip]
  · rw [if_neg hcond, if_neg hcond]

theorem priceActionGenerate_strip (opts : Options) (st : AdvisorState)
    (cp bal : Rat) (sigs : Signals) :
    priceActionGenerate opts st cp bal (stripSignals sigs) =
      priceActionGenerate opts st cp bal sigs := by
  unfold priceActionGenerate
  simp only [stripSignals_low, stripSignals_srZones, stripSigLevel_choc,
    stripSigLevel_chocConfirmed, stripSigLevel_segDir, stripSigLevel_keyLevels,
    stripSigLevel_segmentRange]
  by_cases hcond : (sigs.low.choc = true ∧ (opts.entry = "CHOC" ∨ opts.entry = "CHOC+BOS")
        ∧ st.chocExpired = false)
      ∨ (sigs.low.chocConfirmed = true
          ∧ (opts.entry = "CHOC_CONFIRMED" ∨ opts.entry = "CHOC_CONFIRMED+BOS"))
  · rw [if_pos hcond, if_pos hcond]
    cases hz : sigs.srZones with
    | none => rfl
    | some zs =>
        dsimp only [Option.map, reqZones]
        simp only [Bind.bind, Except.bind]
        rw [testChocZoneInteraction_strip]
        cases testChocZoneInteraction opts zs sigs.low.segDir sigs.low.segmentRange cp with
        | error e => rfl
        | ok tz =>
            cases tz with
            | none => exact priceActionBosBlock_strip opts _ cp bal sigs
            | some p =>
                cases p with
                | mk b interval =>
                    cases b with
                    | true => rfl
                    | false => exact priceActionBosBlock_strip opts _ cp bal sigs
  · rw [if_neg hcond, if_neg hcond]
    exact priceActionBosBlock_strip opts st cp bal sigs

theorem simpleTrendLongGate_strip (opts : Options) (sigs : Signals) :
    simpleTrendLongGate opts (stripSignals sigs) = simpleTrendLongGate opts sigs := rfl

theorem simpleTrendShortGate_strip (opts : Options) (sigs : Signals) :
    simpleTrendShortGate opts (stripSignals sigs) = simpleTrendShortGate opts sigs := rfl

theorem generatePositions_strip (strategy : String) (opts : Options) (st : AdvisorState)
    (cp bal : Rat) (sigs : Signals) :
    generatePositions strategy opts st cp bal (stripSignals sigs) =
      generatePositions strategy opts st cp bal sigs := by
  unfold generatePositions
  simp only [stripSignals_low, stripSigLevel_choc, stripSigLevel_chocConfirmed,
    stripSigLevel_segDir, stripSigLevel_keyLevels, stripSigLevel_segmentRange,
    simpleTrendLongGate_strip, simpleTrendShortGate_strip]
  by_cases h1 : strategy = "SIMPLE_TREND"
  · rw [if_pos h1, if_pos h1]
  · rw [if_neg h1, if_neg h1]
    by_cases h2 : strategy = "PRICE_ACTION"
    · rw [if_pos h2, if_pos h2]
      exact priceActionGenerate_strip opts _ cp bal sigs
    · rw [if_neg h2, if_neg h2]

theorem modifyPositions_strip (opts : Options) (st : AdvisorState) (cp : Rat)
    (sigs : Signals) :
    modifyPositions opts st cp (stripSignals sigs) = modifyPositions opts st cp sigs := rfl

theorem stripPosition_core (p : Position) : (stripPosition p).core = p.core := rfl

theorem stripAccount_positions (a : Account) :
    (stripAccount a).positions = a.positions.map stripPosition := rfl

theorem stripAccount_core (a : Account) : (stripAccount a).core = a.core := rfl

theorem stripAccount_id (a : Account) : (stripAccount a).id = "" := rfl

theorem zid_apply (n : Nat) : zid n = "" := rfl

theorem foldClose_strip (pt : PosType) (instr : String) (time : Nat) (cp : Rat)
    (ps : List Position) (acc : List Position) (v : Rat) :
    (ps.map stripPosition).foldl
      (fun (acc : List Position × Rat) p =>
        if p.core.ptype = pt ∧ p.core.instr = instr ∧ p.core.state = PosState.OPEN then
          let (c, d) := closePosition p.core time cp
          (acc.1 ++ [{ p with core := c }], acc.2 + d)
        else (acc.1 ++ [p], acc.2))
      (acc.map stripPosition, v) =
    (((ps.foldl
        (fun (acc : List Position × Rat) p =>
          if p.core.ptype = pt ∧ p.core.instr = instr ∧ p.core.state = PosState.OPEN then
            let (c, d) := closePosition p.core time cp
            (acc.1 ++ [{ p with core := c }], acc.2 + d)
          else (acc.1 ++ [p], acc.2))
        (acc, v)).1).map stripPosition,
      (ps.foldl
        (fun (acc : List Position × Rat) p =>
          if p.core.ptype = pt ∧ p.core.instr = instr ∧ p.core.state = PosState.OPEN then
            let (c, d) := closePosition p.core time cp
            (acc.1 ++ [{ p with core := c }], acc.2 + d)
          else (acc.1 ++ [p], acc.2))
        (acc, v)).2) := by
  induction ps generalizing acc v with
  | nil => rfl
  | cons p rest ih =>
      simp only [List.map_cons, List.foldl_cons]
      simp only [stripPosition_core]
      by_cases h : p.core.ptype = pt ∧ p.core.instr = instr ∧ p.core.state = PosState.OPEN
      · rw [if_pos h, if_pos h]
        cases hX : closePosition p.core time cp with
        | mk c d =>
            dsimp only
            have h2 := ih (acc ++ [{ p with core := c }]) (v + d)
            rw [List.map_append] at h2
            simp only [List.map_cons, List.map_nil] at h2
            exact h2
      · rw [if_neg h, if_neg h]
        have h2 := ih (acc ++ [p]) v
        rw [List.map_append] at h2
        simp only [List.map_cons, List.map_nil] at h2
        exact h2

theorem applyCloseAll_strip (ps : List Position) (pt : PosType) (instr : String)
    (time : Nat) (cp : Rat) :
    applyCloseAll (ps.map stripPosition) pt instr time cp =
      ((applyCloseAll ps pt instr time cp).1.map stripPosition,
        (applyCloseAll ps pt instr time cp).2) :=
  foldClose_strip pt instr time cp ps [] 0

theorem foldUpd_strip (time : Nat) (lowP highP : Rat)
    (ps : List Position) (acc : List Position) (v : Rat) :
    (ps.map stripPosition).foldl
      (fun (st : List Position × Rat) p =>
        let (c, d) := checkPositionAndUpdate p.core time lowP highP
        (st.1 ++ [{ p with core := c }], st.2 + d))
      (acc.map stripPosition, v) =
    (((ps.foldl
        (fun (st : List Position × Rat) p =>
          let (c, d) := checkPositionAndUpdate p.core time lowP highP
          (st.1 ++ [{ p with core := c }], st.2 + d))
        (acc, v)).1).map stripPosition,
      (ps.foldl
        (fun (st : List Position × Rat) p =>
          let (c, d) := checkPositionAndUpdate p.core time lowP highP
          (st.1 ++ [{ p with core := c }], st.2 + d))
        (acc, v)).2) := by
  induction ps generalizing acc v with
  | nil => rfl
  | cons p rest ih =>
      simp only [List.map_cons, List.foldl_cons]
      simp only [stripPosition_core]
      cases hX : checkPositionAndUpdate p.core time lowP highP with
      | mk c d =>
          dsimp only
          have h2 := ih (acc ++ [{ p with core := c }]) (v + d)
          rw [List.map_append] at h2
          simp only [List.map_cons, List.map_nil] at h2
          exact h2

theorem updateAllPositions_strip (a : Account) (time : Nat) (lowP highP : Rat) :
    updateAllPositions (stripAccount a) time lowP highP =
      stripAccount (updateAllPositions a time lowP highP) := by
  unfold updateAllPositions
  simp only [stripAccount_positions, stripAccount_core]
  have h2 := foldUpd_strip time lowP highP a.positions [] 0
  simp only [List.map_nil] at h2
  rw [h2]
  rfl

theorem updateEquity_strip (a : Account) (lowP highP : Rat) :
    updateEquity (stripAccount a) lowP highP = stripAccount (updateEquity a lowP highP) := by
  unfold updateEquity
  simp only [stripAccount_positions, stripAccount_core, List.foldl_map]
  rfl

theorem countOpenPositions_strip (a : Account) :
    countOpenPositions (stripAccount a) = countOpenPositions a := by
  unfold countOpenPositions
  simp only [stripAccount_positions, List.filter_map, List.length_map]
  rfl

theorem applyMoveSlAll_strip (opts : Options) (ps : List Position) (pt : PosType)
    (instr : String) (tgt : Option Rat) (cp : Rat) :
    applyMoveSlAll opts (ps.map stripPosition) pt instr tgt cp =
      Except.map (List.map stripPosition) (applyMoveSlAll opts ps pt instr tgt cp) := by
  induction ps with
  | nil => rfl
  | cons p rest ih =>
      simp only [List.map_cons, applyMoveSlAll, stripPosition_core]
      by_cases h : p.core.ptype = pt ∧ p.core.instr = instr ∧ p.core.state = PosState.OPEN
      · rw [if_pos h, if_pos h]
        simp only [Bind.bind, Except.bind]
        cases applyMoveSlOne opts p.core tgt cp with
        | error e => rfl
        | ok c =>
            rw [ih]
            cases applyMoveSlAll opts rest pt instr tgt cp with
            | error e => rfl
            | ok rs => rfl
      · rw [if_neg h, if_neg h]
        simp only [Bind.bind, Except.bind]
        rw [ih]
        cases applyMoveSlAll opts rest pt instr tgt cp with
        | error e => rfl
        | ok rs => rfl

theorem applyActions_strip (opts : Options) (time : Nat) (cp : Rat)
    (acts : List Action) (a : Account) :
    applyActions opts (stripAccount a) time cp acts =
      Except.map stripAccount (applyActions opts a time cp acts) := by
  induction acts generalizing a with
  | nil => rfl
  | cons act rest ih =>
      cases act with
      | close pt instr =>
          simp only [applyActions, stripAccount_positions, stripAccount_core]
          rw [applyCloseAll_strip]
          dsimp only
          exact ih { a with
            positions := (applyCloseAll a.positions pt instr time cp).1,
            core := { a.core with
              balance := a.core.balance + (applyCloseAll a.positions pt instr time cp).2 } }
      | moveSl pt instr tgt =>
          simp only [applyActions, stripAccount_positions]
          rw [applyMoveSlAll_strip]
          simp only [Bind.bind, Except.bind]
          cases applyMoveSlAll opts a.positions pt instr tgt cp with
          | error e => rfl
          | ok ps2 => exact ih { a with positions := ps2 }

theorem shortPositionNew_strip (aid pid : String) (instr : String) (entryTime : Nat)
    (cs vol pr : Rat) (sl tp : Option Rat) :
    shortPositionNew "" "" instr entryTime cs vol pr sl tp =
      Except.map stripPosition (shortPositionNew aid pid instr entryTime cs vol pr sl tp) := by
  unfold shortPositionNew
  by_cases h1 : oLe sl pr = true
  · rw [if_pos h1, if_pos h1]
    rfl
  · rw [if_neg h1, if_neg h1]
    by_cases h2 : oGe tp pr = true
    · rw [if_pos h2, if_pos h2]
      rfl
    · rw [if_neg h2, if_neg h2]
      rfl

theorem longPositionNew_strip (aid pid : String) (instr : String) (entryTime : Nat)
    (cs vol pr : Rat) (sl tp : Option Rat) :
    longPositionNew "" "" instr entryTime cs vol pr sl tp =
      Except.map stripPosition (longPositionNew aid pid instr entryTime cs vol pr sl tp) := by
  unfold longPositionNew
  by_cases h1 : oGe sl pr = true
  · rw [if_pos h1, if_pos h1]
    rfl
  · rw [if_neg h1, if_neg h1]
    by_cases h2 : oLe tp pr = true
    · rw [if_pos h2, if_pos h2]
      rfl
    · rw [if_neg h2, if_neg h2]
      rfl

theorem placeTrade_strip (ids : IdStream) (n : Nat) (opts : Options) (a : Account)
    (tr : Option Trade) (time : Nat) :
    placeTrade zid n opts (stripAccount a) tr time =
      Except.map (fun r => (stripAccount r.1, r.2)) (placeTrade ids n opts a tr time) := by
  cases tr with
  | none => rfl
  | some t =>
      simp only [placeTrade]
      rw [countOpenPositions_strip]
      by_cases h : countOpenPositions a < opts.maxConcurrentTrades
      · rw [if_pos h, if_pos h]
        simp only [stripAccount_id, zid_apply, stripAccount_positions]
        by_cases ht : t.ttype = PosType.SELL
        · rw [if_pos ht, if_pos ht]
          rw [shortPositionNew_strip a.id (ids n) t.instr time
            opts.symbol.tradeContractSize t.vol t.price (some t.sl) t.tp]
          simp only [Bind.bind, Except.bind]
          cases shortPositionNew a.id (ids n) t.instr time
              opts.symbol.tradeContractSize t.vol t.price (some t.sl) t.tp with
          | error e => rfl
          | ok p0 =>
              simp only [Except.map]
              rw [show List.map stripPosition a.positions ++ [stripPosition p0]
                  = List.map stripPosition (a.positions ++ [p0]) from
                (List.map_append stripPosition a.positions [p0]).symm]
              rfl
        · rw [if_neg ht, if_neg ht]
          rw [longPositionNew_strip a.id (ids n) t.instr time
            opts.symbol.tradeContractSize t.vol t.price (some t.sl) t.tp]
          simp only [Bind.bind, Except.bind]
          cases longPositionNew a.id (ids n) t.instr time
              opts.symbol.tradeContractSize t.vol t.price (some t.sl) t.tp with
          | error e => rfl
          | ok p0 =>
              simp only [Except.map]
              rw [show List.map stripPosition a.positions ++ [stripPosition p0]
                  = List.map stripPosition (a.positions ++ [p0]) from
                (List.map_append stripPosition a.positions [p0]).symm]
              rfl
      · rw [if_neg h, if_neg h]
        rfl

theorem krakenNew_strip (ids : IdStream) :
    krakenNew zid 0 = (stripKraken (krakenNew ids 0).1, (krakenNew ids 0).2) := rfl

theorem krakenAddCandleLow_strip (ids : IdStream) (n : Nat) (k : KrakenState) (c : Candle) :
    krakenAddCandleLow zid n (stripKraken k) c =
      (stripKraken (krakenAddCandleLow ids n k c).1, (krakenAddCandleLow ids n k c).2) := by
  unfold krakenAddCandleLow
  rw [stripKraken_eq]
  dsimp only
  rw [processCandleSegs_map seedFromParentK ids]
  rfl

theorem krakenAddCandleMid_strip (ids : IdStream) (n : Nat) (k : KrakenState) (c : Candle) :
    krakenAddCandleMid zid n (stripKraken k) c =
      (stripKraken (krakenAddCandleMid ids n k c).1, (krakenAddCandleMid ids n k c).2) := by
  unfold krakenAddCandleMid
  rw [stripKraken_eq]
  dsimp only
  rw [processCandleSegs_map seedFromParentK ids]
  rfl

theorem krakenAddCandleHigh_strip (ids : IdStream) (n : Nat) (k : KrakenState) (c : Candle) :
    krakenAddCandleHigh zid n (stripKraken k) c =
      (stripKraken (krakenAddCandleHigh ids n k c).1, (krakenAddCandleHigh ids n k c).2) := by
  unfold krakenAddCandleHigh
  rw [stripKraken_eq]
  dsimp only
  rw [processCandleSegs_map seedFromParentK ids]
  rfl

theorem foldSegsFresh_strip (seed : SegCore → SegCore) (ids : IdStream)
    (cs : List Candle) (tf : String) (m m' n : Nat) :
    cs.foldl (fun (acc : List PrimarySegment × Nat) c =>
        processCandleSegs seed zid acc.2 acc.1 c)
      ([{ segId := zid m', core := SegCore.fresh tf }], n) =
      ((cs.foldl (fun (acc : List PrimarySegment × Nat) c =>
          processCandleSegs seed ids acc.2 acc.1 c)
        ([{ segId := ids m, core := SegCore.fresh tf }], n)).1.map stripSeg,
       (cs.foldl (fun (acc : List PrimarySegment × Nat) c =>
          processCandleSegs seed ids acc.2 acc.1 c)
        ([{ segId := ids m, core := SegCore.fresh tf }], n)).2) :=
  foldSegs_map seed ids cs [{ segId := ids m, core := SegCore.fresh tf }] n

theorem except_bind_congr {α β γ : Type} (E : Except String α) (g : β → γ)
    (f : α → Except String β) (f2 : α → Except String γ)
    (h : ∀ a, f2 a = Except.map g (f a)) :
    Except.bind E f2 = Except.map g (Except.bind E f) := by
  cases E with
  | error e => rfl
  | ok a => exact h a

theorem initializeNewZones_strip (ids : IdStream) (n : Nat) (k : KrakenState)
    (srLow srHigh : List Candle) (mode : Option ZoningMode) :
    initializeNewZones zid n (stripKraken k) srLow srHigh mode =
      Except.map (fun r => (stripKraken r.1, r.2))
        (initializeNewZones ids n k srLow srHigh mode) := by
  unfold initializeNewZones
  rw [stripKraken_eq]
  dsimp only
  cases hsr : k.sr with
  | none =>
      dsimp only [Option.map]
      rw [foldSegsFresh_strip seedFromParentSR ids srLow "T1" n n (n + 2),
          foldSegsFresh_strip seedFromParentSR ids srHigh "T2" (n + 1) (n + 1)]
      dsimp only
      rw [compileZones_map]
      simp only [Bind.bind]
      refine except_bind_congr _ _ _ _ (fun raw => ?_)
      dsimp only
      have hz := fun nn => processZones_map mode ids nn raw []
      simp only [List.map_nil] at hz
      rw [hz]
      rfl
  | some sr0 =>
      dsimp only [Option.map, stripSR]
      rw [foldSegsFresh_strip seedFromParentSR ids srLow "T1" n n (n + 2),
          foldSegsFresh_strip seedFromParentSR ids srHigh "T2" (n + 1) (n + 1)]
      dsimp only
      rw [compileZones_map]
      simp only [Bind.bind]
      refine except_bind_congr _ _ _ _ (fun raw => ?_)
      dsimp only
      have hz := fun nn => processZones_map sr0.mode ids nn raw sr0.aggrZones
      rw [hz]
      rfl

theorem krakenInitialize_strip (ids : IdStream) (n : Nat) (k : KrakenState)
    (pstLow pstMid pstHigh : List Candle)
    (srw : Option (List Candle × List Candle)) (mode : Option ZoningMode) :
    krakenInitialize zid n (stripKraken k) pstLow pstMid pstHigh srw mode =
      Except.map (fun r => (stripKraken r.1, r.2))
        (krakenInitialize ids n k pstLow pstMid pstHigh srw mode) := by
  unfold krakenInitialize
  rw [stripKraken_eq]
  dsimp only
  rw [foldSegs_map seedFromParentK ids pstLow, foldSegs_map seedFromParentK ids pstMid,
      foldSegs_map seedFromParentK ids pstHigh]
  dsimp only
  cases srw with
  | none => rfl
  | some pr =>
      cases pr with
      | mk sl sh =>
          dsimp only
          exact initializeNewZones_strip ids
            (pstHigh.foldl (fun (acc : List PrimarySegment × Nat) c =>
                processCandleSegs seedFromParentK ids acc.2 acc.1 c)
              (k.segsHigh,
                (pstMid.foldl (fun (acc : List PrimarySegment × Nat) c =>
                    processCandleSegs seedFromParentK ids acc.2 acc.1 c)
                  (k.segsMid,
                    (pstLow.foldl (fun (acc : List PrimarySegment × Nat) c =>
                        processCandleSegs seedFromParentK ids acc.2 acc.1 c)
                      (k.segsLow, n)).2)).2)).2
            { segsLow :=
                (pstLow.foldl (fun (acc : List PrimarySegment × Nat) c =>
                    processCandleSegs seedFromParentK ids acc.2 acc.1 c)
                  (k.segsLow, n)).1,
              segsMid :=
                (pstMid.foldl (fun (acc : List PrimarySegment × Nat) c =>
                    processCandleSegs seedFromParentK ids acc.2 acc.1 c)
                  (k.segsMid,
                    (pstLow.foldl (fun (acc : List PrimarySegment × Nat) c =>
                        processCandleSegs seedFromParentK ids acc.2 acc.1 c)
                      (k.segsLow, n)).2)).1,
              segsHigh :=
                (pstHigh.foldl (fun (acc : List PrimarySegment × Nat) c =>
                    processCandleSegs seedFromParentK ids acc.2 acc.1 c)
                  (k.segsHigh,
                    (pstMid.foldl (fun (acc : List PrimarySegment × Nat) c =>
                        processCandleSegs seedFromParentK ids acc.2 acc.1 c)
                      (k.segsMid,
                        (pstLow.foldl (fun (acc : List PrimarySegment × Nat) c =>
                            processCandleSegs seedFromParentK ids acc.2 acc.1 c)
                          (k.segsLow, n)).2)).2)).1,
              pstLow := pstLow, pstMid := pstMid, pstHigh := pstHigh, sr := k.sr }
            sl sh mode

theorem annotPss_map (revsegs : List PrimarySegment) (candles : Int) :
    annotPss (revsegs.map stripSeg) candles = annotPss revsegs candles := by
  induction revsegs generalizing candles with
  | nil => rfl
  | cons s rest ih =>
      show (if candles - (s.core.candles.length : Int) ≤ 0 ∨ rest.map stripSeg = [] then 1
            else 1 + annotPss (rest.map stripSeg) (candles - (s.core.candles.length : Int)))
          = (if candles - (s.core.candles.length : Int) ≤ 0 ∨ rest = [] then 1
            else 1 + annotPss rest (candles - (s.core.candles.length : Int)))
      cases rest with
      | nil => rfl
      | cons t ts =>
          by_cases hC : candles - (s.core.candles.length : Int) ≤ 0
          · rw [if_pos (Or.inl hC), if_pos (Or.inl hC)]
          · have hL : ¬(candles - (s.core.candles.length : Int) ≤ 0
                ∨ (t :: ts : List PrimarySegment).map stripSeg = []) := by
              rintro (hc | hc)
              · exact hC hc
              · exact List.noConfusion hc
            have hR : ¬(candles - (s.core.candles.length : Int) ≤ 0
                ∨ (t :: ts : List PrimarySegment) = []) := by
              rintro (hc | hc)
              · exact hC hc
              · exact List.noConfusion hc
            rw [if_neg hL, if_neg hR, ih]

theorem annotLoop_map (segs : List PrimarySegment)
    (acc : List Nat × List Nat × List (Option Nat) × Option Rat × Option Rat) :
    annotLoop (segs.map stripSeg) acc = annotLoop segs acc := by
  induction segs generalizing acc with
  | nil => rfl
  | cons s rest ih =>
      obtain ⟨bos, choc, cc, mn, mx⟩ := acc
      simp only [List.map_cons, annotLoop, stripSeg_core]
      simp only [Bind.bind, Except.bind]
      cases pyMinOpt mn s.core.segmentLow with
      | error e => rfl
      | ok mn2 =>
          cases pyMaxOpt mx s.core.segmentHigh with
          | error e => rfl
          | ok mx2 => exact ih _

theorem getAnnotLevel_map (segs : List PrimarySegment) (r : Rat) (candleLength : Nat) :
    getAnnotLevel (segs.map stripSeg) r candleLength = getAnnotLevel segs r candleLength := by
  unfold getAnnotLevel
  dsimp only
  rw [show (segs.map stripSeg).reverse = segs.reverse.map stripSeg from
      (List.map_reverse stripSeg segs).symm]
  rw [annotPss_map, ← List.map_take, annotLoop_map]
  simp only [Bind.bind, Except.bind]
  cases annotLoop (segs.reverse.take (annotPss segs.reverse
      (pyTrunc ((candleLength : Rat) / r)))) ([], [], [], none, none) with
  | error e => rfl
  | ok tup =>
      obtain ⟨bos, choc, cc, mn, mx⟩ := tup
      dsimp only
      rw [List.getLast?_map]
      cases segs.getLast? with
      | none => rfl
      | some activ => rfl

theorem getAnnotData_strip (k : KrakenState) (rl rm rh : Rat) (len : Nat) :
    getAnnotData (stripKraken k) rl rm rh len =
      Except.map stripAnnot (getAnnotData k rl rm rh len) := by
  unfold getAnnotData
  rw [stripKraken_eq]
  dsimp only
  rw [getAnnotLevel_map, getAnnotLevel_map, getAnnotLevel_map]
  simp only [Bind.bind, Except.bind]
  cases getAnnotLevel k.segsLow rl len with
  | error e => rfl
  | ok l =>
      cases getAnnotLevel k.segsMid rm len with
      | error e => rfl
      | ok m =>
          cases getAnnotLevel k.segsHigh rh len with
          | error e => rfl
          | ok h =>
              simp only [Except.map, Except.ok.injEq]
              cases hsr : k.sr with
              | none => rfl
              | some sr =>
                  dsimp only [Option.map]
                  simp only [stripAnnot, stripSR]
                  rw [getZones_map]
                  rfl

theorem bind_strip_step {α β γ δ : Type} (Ez : Except String β) (E : Except String α)
    (t : α → β) (g : δ → γ) (f2 : β → Except String γ) (f : α → Except String δ)
    (hE : Ez = Except.map t E) (h : ∀ a, f2 (t a) = Except.map g (f a)) :
    Except.bind Ez f2 = Except.map g (Except.bind E f) := by
  subst hE
  cases E with
  | error e => rfl
  | ok a => exact h a

theorem except_bind_map_congr {α β γ δ : Type} (E : Except String α) (t : α → β)
    (g : δ → γ) (f2 : β → Except String γ) (f : α → Except String δ)
    (h : ∀ a, f2 (t a) = Except.map g (f a)) :
    Except.bind (Except.map t E) f2 = Except.map g (Except.bind E f) := by
  cases E with
  | error e => rfl
  | ok a => exact h a

theorem stripSim_kraken (st : SimState) : (stripSim st).kraken = stripKraken st.kraken := rfl

theorem stripSim_adv (st : SimState) : (stripSim st).adv = st.adv := rfl

theorem stripSim_account (st : SimState) : (stripSim st).account = stripAccount st.account := rfl

theorem stripSim_nextId (st : SimState) : (stripSim st).nextId = st.nextId := rfl

theorem stripSim_log (st : SimState) :
    (stripSim st).signalsLog = st.signalsLog.map stripSignals := rfl

theorem simStepCore_strip (inp : RunInputs) (ids : IdStream) (st : SimState) (row : Candle)
    (k : KrakenState) (n : Nat) :
    simStepCore inp zid (stripSim st) row (stripKraken k) n =
      Except.map stripSim (simStepCore inp ids st row k n) := by
  unfold simStepCore
  simp only [stripSim_adv, stripSim_account, stripSim_log, stripAccount_core]
  simp only [Bind.bind]
  rw [getSignalData_strip]
  refine except_bind_map_congr _ _ stripSim _ _ (fun sigs => ?_)
  dsimp only
  rw [generatePositions_strip]
  refine except_bind_congr _ stripSim _ _ (fun at2 => ?_)
  obtain ⟨adv, trade⟩ := at2
  dsimp only
  rw [modifyPositions_strip]
  rw [updateAllPositions_strip, updateEquity_strip]
  rw [placeTrade_strip ids]
  refine except_bind_map_congr _ _ stripSim _ _ (fun an => ?_)
  obtain ⟨acc, n4⟩ := an
  dsimp only
  rw [applyActions_strip]
  refine except_bind_map_congr _ _ stripSim _ _ (fun acc2 => ?_)
  rw [show List.map stripSignals st.signalsLog ++ [stripSignals sigs]
      = List.map stripSignals (st.signalsLog ++ [sigs]) from
    (List.map_append stripSignals st.signalsLog [sigs]).symm]
  rfl

theorem simStep_strip (inp : RunInputs) (ids : IdStream) (psr srHighRel rMid rHigh : Rat)
    (srIloc0 : Nat) (st : SimState) (i : Nat) (row : Candle) :
    simStep inp zid psr srHighRel rMid rHigh srIloc0 (stripSim st) i row =
      Except.map stripSim (simStep inp ids psr srHighRel rMid rHigh srIloc0 st i row) := by
  unfold simStep
  simp only [stripSim_kraken, stripSim_nextId]
  simp only [Bind.bind]
  by_cases hc : i % inp.srPstCycle = 0
  · rw [if_pos hc, if_pos hc]
    rw [initializeNewZones_strip ids]
    refine except_bind_map_congr _ _ stripSim _ _ (fun kn => ?_)
    obtain ⟨k, n⟩ := kn
    try dsimp only
    rw [krakenAddCandleLow_strip ids]
    try dsimp only
    by_cases hm : modRatioZero i rMid = true
    · rw [if_pos hm, if_pos hm]
      split
      · rw [krakenAddCandleMid_strip ids]
        try simp only [Except.bind]
        try dsimp only
        by_cases hh : modRatioZero i rHigh = true
        · rw [if_pos hh, if_pos hh]
          split
          · rw [krakenAddCandleHigh_strip ids]
            try simp only [Except.bind]
            try dsimp only
            exact simStepCore_strip inp ids st row _ _
          · rfl
        · rw [if_neg hh, if_neg hh]
          try simp only [Except.bind]
          try dsimp only
          exact simStepCore_strip inp ids st row _ _
      · rfl
    · rw [if_neg hm, if_neg hm]
      try simp only [Except.bind]
      try dsimp only
      by_cases hh : modRatioZero i rHigh = true
      · rw [if_pos hh, if_pos hh]
        split
        · rw [krakenAddCandleHigh_strip ids]
          try simp only [Except.bind]
          try dsimp only
          exact simStepCore_strip inp ids st row _ _
        · rfl
      · rw [if_neg hh, if_neg hh]
        try simp only [Except.bind]
        try dsimp only
        exact simStepCore_strip inp ids st row _ _
  · rw [if_neg hc, if_neg hc]
    try simp only [Except.bind]
    try dsimp only
    rw [krakenAddCandleLow_strip ids]
    try dsimp only
    by_cases hm : modRatioZero i rMid = true
    · rw [if_pos hm, if_pos hm]
      split
      · rw [krakenAddCandleMid_strip ids]
        try simp only [Except.bind]
        try dsimp only
        by_cases hh : modRatioZero i rHigh = true
        · rw [if_pos hh, if_pos hh]
          split
          · rw [krakenAddCandleHigh_strip ids]
            try simp only [Except.bind]
            try dsimp only
            exact simStepCore_strip inp ids st row _ _
          · rfl
        · rw [if_neg hh, if_neg hh]
          try simp only [Except.bind]
          try dsimp only
          exact simStepCore_strip inp ids st row _ _
      · rfl
    · rw [if_neg hm, if_neg hm]
      try simp only [Except.bind]
      try dsimp only
      by_cases hh : modRatioZero i rHigh = true
      · rw [if_pos hh, if_pos hh]
        split
        · rw [krakenAddCandleHigh_strip ids]
          try simp only [Except.bind]
          try dsimp only
          exact simStepCore_strip inp ids st row _ _
        · rfl
      · rw [if_neg hh, if_neg hh]
        try simp only [Except.bind]
        try dsimp only
        exact simStepCore_strip inp ids st row _ _

theorem foldSim_strip (inp : RunInputs) (ids : IdStream) (psr srHighRel rMid rHigh : Rat)
    (srIloc0 : Nat) (rows : List (Nat × Candle)) (st : SimState) :
    rows.foldlM (fun st (pair : Nat × Candle) =>
        simStep inp zid psr srHighRel rMid rHigh srIloc0 st pair.1 pair.2) (stripSim st) =
      Except.map stripSim (rows.foldlM (fun st (pair : Nat × Candle) =>
        simStep inp ids psr srHighRel rMid rHigh srIloc0 st pair.1 pair.2) st) := by
  induction rows generalizing st with
  | nil => rfl
  | cons r rest ih =>
      simp only [List.foldlM_cons]
      simp only [Bind.bind]
      rw [simStep_strip inp ids]
      refine except_bind_map_congr _ _ stripSim _ _ (fun st2 => ?_)
      exact ih st2

theorem stripRun_eq_map (E : Except String RunOutput) :
    stripRun E = Except.map stripOutput E := by
  cases E <;> rfl

theorem runBacktest_strip (inp : RunInputs) (ids : IdStream) :
    runBacktest inp zid = stripRun (runBacktest inp ids) := by
  rw [stripRun_eq_map]
  unfold runBacktest
  simp only [Bind.bind]
  refine except_bind_congr _ stripOutput _ _ (fun r3 => ?_)
  obtain ⟨rLow, rMH⟩ := r3
  obtain ⟨rMid, rHigh⟩ := rMH
  dsimp only
  refine except_bind_congr _ stripOutput _ _ (fun r2 => ?_)
  obtain ⟨r1, srHighRel⟩ := r2
  dsimp only
  refine except_bind_congr _ stripOutput _ _ (fun psr => ?_)
  dsimp only
  cases hpi : indexOfTs inp.lowData inp.startTs with
  | none => rfl
  | some pstIloc =>
      simp only [Except.bind]
      cases hsi : indexOfTs inp.srLowData inp.startTs with
      | none => rfl
      | some srIloc0 =>
          simp only [Except.bind]
          rw [krakenNew_strip ids]
          cases krakenNew ids 0 with
          | mk k0 n0 =>
              dsimp only
              rw [krakenInitialize_strip ids n0 k0]
              refine except_bind_map_congr _ _ stripOutput _ _ (fun kn => ?_)
              obtain ⟨k, n⟩ := kn
              dsimp only
              refine bind_strip_step _ _ stripSim stripOutput _ _ ?_ (fun fin => ?_)
              · exact foldSim_strip inp ids psr srHighRel rMid rHigh srIloc0 _
                  { kraken := k, adv := AdvisorState.init,
                    account := accountNew (ids n) inp.opts.initAccountBalance,
                    nextId := n + 1, signalsLog := [] }
              · dsimp only
                simp only [stripSim_kraken, stripSim_account, stripSim_log,
                  stripAccount_positions, stripAccount_core]
                rw [getAnnotData_strip]
                refine except_bind_map_congr _ _ stripOutput _ _ (fun annotD => ?_)
                dsimp only
                rw [List.map_map]
                rfl

/--
C1: the spec claims two backtest runs on identical inputs produce identical
positions, annotation, signals and trades records and a bit-identical final
balance.  This fails as stated: every run draws fresh uuid4 identifiers for
the account, the positions, the primary segments and the SR zones, and the
segment and zone identifiers are published verbatim inside the signal and
annotation records, so two runs with different uuid draws (modelled by two
different id streams) give different outputs on the same inputs.
-/
theorem C1_uuid_counterexample :
    runBacktest inpC1 (fun _ => "a") ≠ runBacktest inpC1 zid := by
  with_unfolding_all decide

/--
C1 (amended): backtest runs on identical inputs are deterministic modulo the
uuid4 draws: after erasing the uuid-derived identifiers (account id, position
ids, segment seg_ids and SR zone ids) the outputs of any two runs coincide
exactly -- in particular the trade records, the final balance, and all
numeric and boolean content of the signals and annotation are identical,
because the identifiers never influence the dynamics.
-/
theorem C1_run_determinism_modulo_ids (inp : RunInputs) (ids1 ids2 : IdStream) :
    stripRun (runBacktest inp ids1) = stripRun (runBacktest inp ids2) :=
  (runBacktest_strip inp ids1).symm.trans (runBacktest_strip inp ids2)

end MT5
